import Mathlib

/-!
Verification of the data-mapping and request-construction layer of a typed
client for the Google Maps Places web API (files `places.py`, `_client.py`,
`_exceptions.py`).  JSON wire values are modelled by the inductive `Json`
below; Python dictionaries are association lists with insert-or-replace
update; Python exceptions are modelled by `Except String`.  Numeric wire
values keep the Python distinction between int and float (floats are taken
as rationals, which is exact for every literal appearing in the claims).
Fields that the source stores without conversion are kept as raw `Json`
values, mirroring the fact that the Python dataclasses never check the
declared field types at runtime.
-/

/-- JSON values as decoded by the Python json module: null, booleans,
ints, floats, strings, arrays and objects (insertion-ordered dicts). -/
inductive Json where
  | null
  | bool (b : Bool)
  | int (n : Int)
  | float (q : Rat)
  | str (s : String)
  | arr (xs : List Json)
  | obj (kvs : List (String × Json))

/-- Lookup of a key in an association list, first match wins.  On the
(duplicate-free) dicts produced by JSON decoding this is Python dict
indexing. -/
def assocFind (k : String) : List (String × Json) → Option Json
  | [] => none
  | (k2, v) :: rest => if k2 = k then some v else assocFind k rest

/-- Python dict update: replace the value in place if the key is present,
otherwise append the binding at the end. -/
def dictInsert (m : List (String × Json)) (k : String) (v : Json) :
    List (String × Json) :=
  if m.any (fun kv => kv.1 = k) then
    m.map (fun kv => if kv.1 = k then (k, v) else kv)
  else m ++ [(k, v)]

/-- Tests whether an `Except` result is a success. -/
def isOk : Except String α → Bool
  | .ok _ => true
  | .error _ => false

/-- Modelled from the spec: the casing transform of the external casefy
library, described as a pure, reversible conversion between lower camel
case wire names and snake case domain names.  An upper-case letter is
mapped to an underscore followed by its lower-case form (no underscore at
the very start). -/
def snakecase (s : String) : String :=
  ⟨s.data.foldl
    (fun acc c =>
      if c.isUpper then
        if acc.isEmpty then [c.toLower] else acc ++ ['_', c.toLower]
      else acc ++ [c])
    []⟩

/-- Helper for `camelcase`: the accumulated characters plus a flag telling
whether the next letter starts a new word and must be capitalised. -/
def camelStep (st : List Char × Bool) (c : Char) : List Char × Bool :=
  if c = '_' then (st.1, true)
  else if st.2 then (st.1 ++ [c.toUpper], false)
  else if st.1.isEmpty then ([c.toLower], false)
  else (st.1 ++ [c], false)

/-- Modelled from the spec: the casefy conversion from snake case to lower
camel case, removing underscores and capitalising each later word. -/
def camelcase (s : String) : String :=
  ⟨(s.data.foldl camelStep ([], false)).1⟩

/-- Python str.lower: every character lower-cased (character-list map,
equivalent to String.toLower). -/
def pyLower (s : String) : String := ⟨s.data.map Char.toLower⟩

/-- Python truthiness of a JSON value: null, false, zero, the empty
string, the empty array and the empty object are falsy. -/
def jsonTruthy : Json → Bool
  | .null => false
  | .bool b => b
  | .int n => n != 0
  | .float q => q != 0
  | .str s => !s.isEmpty
  | .arr xs => !xs.isEmpty
  | .obj kvs => !kvs.isEmpty

/-- Extracts a string payload, failing on every other shape. -/
def jsonAsStr : Json → Except String String
  | .str s => .ok s
  | _ => .error "TypeError: expected a string"

/-- Extracts an int payload, failing on every other shape. -/
def jsonAsInt : Json → Except String Int
  | .int n => .ok n
  | _ => .error "TypeError: expected an int"

/-- Extracts the elements of a JSON array, failing on every other shape. -/
def jsonAsArr : Json → Except String (List Json)
  | .arr xs => .ok xs
  | _ => .error "TypeError: expected a list"

/-- Extracts the fields of a JSON object, failing on every other shape. -/
def jsonAsObj : Json → Except String (List (String × Json))
  | .obj kvs => .ok kvs
  | _ => .error "TypeError: expected a dict"

/-- Python dict indexing `data[k]`: the value when present, a KeyError
otherwise. -/
def jsonIndex (j : Json) (k : String) : Except String Json := do
  let kvs ← jsonAsObj j
  match assocFind k kvs with
  | some v => .ok v
  | none => .error ("KeyError: " ++ k)

/-- The dict comprehension appearing throughout the source that renames
every key of a decoded object to snake case (later duplicates win, as in
Python). -/
def toSnakeDict (kvs : List (String × Json)) : List (String × Json) :=
  kvs.foldl (fun acc kv => dictInsert acc (snakecase kv.1) kv.2) []

-- ------------------------------------------------------------------ --
-- Enums (places.py, lines 26 to 61)
-- ------------------------------------------------------------------ --

/-- Price levels for places. -/
inductive PriceLevel where
  | unspecified
  | free
  | inexpensive
  | moderate
  | expensive
  | very_expensive
  deriving DecidableEq

/-- Upper snake name of a price level, as in the Python enum. -/
def PriceLevel.pyName : PriceLevel → String
  | .unspecified => "UNSPECIFIED"
  | .free => "FREE"
  | .inexpensive => "INEXPENSIVE"
  | .moderate => "MODERATE"
  | .expensive => "EXPENSIVE"
  | .very_expensive => "VERY_EXPENSIVE"

/-- Enum value lookup `PriceLevel(value)` on the lower-case member
values, a ValueError when no member matches. -/
def PriceLevel.ofValue (s : String) : Except String PriceLevel :=
  if s = "unspecified" then .ok .unspecified
  else if s = "free" then .ok .free
  else if s = "inexpensive" then .ok .inexpensive
  else if s = "moderate" then .ok .moderate
  else if s = "expensive" then .ok .expensive
  else if s = "very_expensive" then .ok .very_expensive
  else .error ("ValueError: not a valid PriceLevel: " ++ s)

/-- Python str.removeprefix: drops the marker when the string starts
with it, implemented on the character lists. -/
def removePre (p s : String) : String :=
  if s.data.take p.data.length = p.data then ⟨s.data.drop p.data.length⟩
  else s

/-- Converts the price level from the format returned by the API: the
leading PRICE_LEVEL_ marker is removed and the rest is lower-cased. -/
def PriceLevel.from_api_format (value : String) : Except String PriceLevel :=
  PriceLevel.ofValue (pyLower (removePre "PRICE_LEVEL_" value))

/-- Returns the price level in the format required by the API. -/
def PriceLevel.to_api_format (p : PriceLevel) : String :=
  "PRICE_LEVEL_" ++ p.pyName

/-- The status of a business. -/
inductive BusinessStatus where
  | operational
  | closed_temporarily
  | closed_permanently
  deriving DecidableEq

/-- Converts the business status from the format returned by the API:
the wire string is lower-cased and looked up among the member values. -/
def BusinessStatus.from_api_format (value : String) :
    Except String BusinessStatus :=
  if pyLower value = "operational" then .ok .operational
  else if pyLower value = "closed_temporarily" then .ok .closed_temporarily
  else if pyLower value = "closed_permanently" then .ok .closed_permanently
  else .error ("ValueError: not a valid BusinessStatus: " ++ value)

/-- Returns the business status in the format required by the API, the
upper snake member name. -/
def BusinessStatus.to_api_format : BusinessStatus → String
  | .operational => "OPERATIONAL"
  | .closed_temporarily => "CLOSED_TEMPORARILY"
  | .closed_permanently => "CLOSED_PERMANENTLY"

/-- The well-formed wire strings of the price level enum. -/
def priceLevelWire : List String :=
  ["PRICE_LEVEL_UNSPECIFIED", "PRICE_LEVEL_FREE", "PRICE_LEVEL_INEXPENSIVE",
   "PRICE_LEVEL_MODERATE", "PRICE_LEVEL_EXPENSIVE",
   "PRICE_LEVEL_VERY_EXPENSIVE"]

/-- The well-formed wire strings of the business status enum. -/
def businessStatusWire : List String :=
  ["OPERATIONAL", "CLOSED_TEMPORARILY", "CLOSED_PERMANENTLY"]

-- ------------------------------------------------------------------ --
-- Geographic areas (places.py, lines 64 to 141)
-- ------------------------------------------------------------------ --

/-- Latitude and longitude values of a point, stored as decoded (the
source passes them through without conversion). -/
def LatLng : Type := Json × Json

/-- A circular area to search for places. -/
structure CircularArea where
  center : LatLng
  radius : Int

/-- Validation performed at construction time: the radius must be
between 1 and 50,000 meters. -/
def CircularArea.post_init_ok (a : CircularArea) : Bool :=
  0 < a.radius && a.radius ≤ 50000

/-- Creates a CircularArea from the data returned by the API, running
the construction-time radius validation. -/
def CircularArea.from_api_format (j : Json) : Except String CircularArea := do
  let c ← jsonIndex j "center"
  let la ← jsonIndex c "latitude"
  let lo ← jsonIndex c "longitude"
  let radius ← jsonAsInt (← jsonIndex j "radius")
  let a : CircularArea := ⟨(la, lo), radius⟩
  if a.post_init_ok then .ok a
  else .error "ValueError: Radius must be between 1 and 50,000 meters."

/-- Returns the area in the format required by the API. -/
def CircularArea.to_api_format (a : CircularArea) : Json :=
  .obj
    [("center", .obj [("latitude", a.center.1), ("longitude", a.center.2)]),
     ("radius", .int a.radius)]

/-- Canonical well-formed wire form of a circular area: exactly the keys
emitted by the encoder, with an in-range integer radius. -/
def CircularArea.wf : Json → Bool
  | .obj
      [("center", .obj [("latitude", _), ("longitude", _)]),
       ("radius", .int r)] => 0 < r && r ≤ 50000
  | _ => false

/-- A rectangular area to search for places. -/
structure RectangularArea where
  south_west : LatLng
  north_east : LatLng

/-- Creates a RectangularArea from the data returned by the API. -/
def RectangularArea.from_api_format (j : Json) :
    Except String RectangularArea := do
  let low ← jsonIndex j "low"
  let swla ← jsonIndex low "latitude"
  let swlo ← jsonIndex low "longitude"
  let high ← jsonIndex j "high"
  let nela ← jsonIndex high "latitude"
  let nelo ← jsonIndex high "longitude"
  .ok ⟨(swla, swlo), (nela, nelo)⟩

/-- Returns the area in the format required by the API. -/
def RectangularArea.to_api_format (a : RectangularArea) : Json :=
  .obj
    [("low", .obj [("latitude", a.south_west.1), ("longitude", a.south_west.2)]),
     ("high", .obj [("latitude", a.north_east.1), ("longitude", a.north_east.2)])]

/-- Canonical well-formed wire form of a rectangular area. -/
def RectangularArea.wf : Json → Bool
  | .obj
      [("low", .obj [("latitude", _), ("longitude", _)]),
       ("high", .obj [("latitude", _), ("longitude", _)])] => true
  | _ => false

-- ------------------------------------------------------------------ --
-- Small value objects (places.py, lines 144 to 205 and 275 to 293)
-- ------------------------------------------------------------------ --

/-- Tests for a JSON string. -/
def isStrJson : Json → Bool
  | .str _ => true
  | _ => false

/-- Tests for a JSON string or null. -/
def isStrOrNull : Json → Bool
  | .str _ => true
  | .null => true
  | _ => false

/-- Tests for a JSON boolean or null. -/
def isBoolOrNull : Json → Bool
  | .bool _ => true
  | .null => true
  | _ => false

/-- A string associated with a language code.  Field values are stored as
decoded, the dataclass does not check them. -/
structure LocalizedString where
  text : Json
  language_code : Json

/-- Creates a LocalizedString from the data returned by the API: keys
are renamed to snake case and passed as keyword arguments, so unknown or
missing keys fail. -/
def LocalizedString.from_api_format (j : Json) :
    Except String LocalizedString := do
  let kvs ← jsonAsObj j
  let d := toSnakeDict kvs
  if d.all (fun kv => kv.1 == "text" || kv.1 == "language_code") then
    match assocFind "text" d, assocFind "language_code" d with
    | some t, some lc => .ok ⟨t, lc⟩
    | _, _ => .error "TypeError: missing a required argument"
  else .error "TypeError: unexpected keyword argument"

/-- Returns the display name in the format required by the API: the
fields in declaration order with camel-cased keys. -/
def LocalizedString.to_api_format (x : LocalizedString) : Json :=
  .obj [("text", x.text), ("languageCode", x.language_code)]

/-- Canonical well-formed wire form of a localized string. -/
def LocalizedString.wf : Json → Bool
  | .obj [("text", .str _), ("languageCode", .str _)] => true
  | _ => false

/-- The parts of an address. -/
structure AddressComponent where
  long_text : Json
  short_text : Json
  types : Json
  language_code : Json

/-- Creates an AddressComponent from the data returned by the API. -/
def AddressComponent.from_api_format (j : Json) :
    Except String AddressComponent := do
  let kvs ← jsonAsObj j
  let d := toSnakeDict kvs
  if d.all (fun kv =>
      kv.1 == "long_text" || kv.1 == "short_text" || kv.1 == "types" ||
      kv.1 == "language_code") then
    match assocFind "long_text" d, assocFind "short_text" d,
        assocFind "types" d, assocFind "language_code" d with
    | some lt, some st, some ty, some lc => .ok ⟨lt, st, ty, lc⟩
    | _, _, _, _ => .error "TypeError: missing a required argument"
  else .error "TypeError: unexpected keyword argument"

/-- Returns the address component in the format required by the API. -/
def AddressComponent.to_api_format (x : AddressComponent) : Json :=
  .obj
    [("longText", x.long_text), ("shortText", x.short_text),
     ("types", x.types), ("languageCode", x.language_code)]

/-- Canonical well-formed wire form of an address component. -/
def AddressComponent.wf : Json → Bool
  | .obj
      [("longText", .str _), ("shortText", .str _), ("types", .arr ts),
       ("languageCode", .str _)] => ts.all isStrJson
  | _ => false

/-- A plus code for a place. -/
structure PlusCode where
  global_code : Json
  compound_code : Json

/-- Creates a PlusCode from the data returned by the API by direct
indexing, so extra keys are ignored. -/
def PlusCode.from_api_format (j : Json) : Except String PlusCode := do
  let g ← jsonIndex j "globalCode"
  let c ← jsonIndex j "compoundCode"
  .ok ⟨g, c⟩

/-- Returns the plus code in the format required by the API. -/
def PlusCode.to_api_format (x : PlusCode) : Json :=
  .obj [("globalCode", x.global_code), ("compoundCode", x.compound_code)]

/-- Canonical well-formed wire form of a plus code. -/
def PlusCode.wf : Json → Bool
  | .obj [("globalCode", .str _), ("compoundCode", .str _)] => true
  | _ => false

/-- The author attribution for a given resource.  The uri and photo uri
default to None (JSON null) when not supplied. -/
structure AuthorAttribution where
  display_name : Json
  uri : Json := .null
  photo_uri : Json := .null

/-- Creates an AuthorAttribution from the data returned by the API:
snake-cased keys passed as keyword arguments, with the two optional
fields defaulting to None when their keys are absent. -/
def AuthorAttribution.from_api_format (j : Json) :
    Except String AuthorAttribution := do
  let kvs ← jsonAsObj j
  let d := toSnakeDict kvs
  if d.all (fun kv =>
      kv.1 == "display_name" || kv.1 == "uri" || kv.1 == "photo_uri") then
    match assocFind "display_name" d with
    | some dn =>
        .ok ⟨dn, (assocFind "uri" d).getD .null,
          (assocFind "photo_uri" d).getD .null⟩
    | none => .error "TypeError: missing a required argument"
  else .error "TypeError: unexpected keyword argument"

/-- Returns the author attribution in the format required by the API:
every field is emitted, including null ones. -/
def AuthorAttribution.to_api_format (x : AuthorAttribution) : Json :=
  .obj
    [("displayName", x.display_name), ("uri", x.uri),
     ("photoUri", x.photo_uri)]

/-- Well-formed wire form of an author attribution carrying all three
keys explicitly. -/
def AuthorAttribution.wf : Json → Bool
  | .obj [("displayName", .str _), ("uri", u), ("photoUri", p)] =>
      isStrOrNull u && isStrOrNull p
  | _ => false

/-- The parking options for a place: independently nullable booleans. -/
structure ParkingOptions where
  free_garage_parking : Json := .null
  free_parking_lot : Json := .null
  free_street_parking : Json := .null
  paid_garage_parking : Json := .null
  paid_parking_lot : Json := .null
  paid_street_parking : Json := .null
  valet_parking : Json := .null

/-- Creates a ParkingOptions from the data returned by the API. -/
def ParkingOptions.from_api_format (j : Json) :
    Except String ParkingOptions := do
  let kvs ← jsonAsObj j
  let d := toSnakeDict kvs
  if d.all (fun kv =>
      kv.1 == "free_garage_parking" || kv.1 == "free_parking_lot" ||
      kv.1 == "free_street_parking" || kv.1 == "paid_garage_parking" ||
      kv.1 == "paid_parking_lot" || kv.1 == "paid_street_parking" ||
      kv.1 == "valet_parking") then
    .ok
      { free_garage_parking := (assocFind "free_garage_parking" d).getD .null
        free_parking_lot := (assocFind "free_parking_lot" d).getD .null
        free_street_parking := (assocFind "free_street_parking" d).getD .null
        paid_garage_parking := (assocFind "paid_garage_parking" d).getD .null
        paid_parking_lot := (assocFind "paid_parking_lot" d).getD .null
        paid_street_parking := (assocFind "paid_street_parking" d).getD .null
        valet_parking := (assocFind "valet_parking" d).getD .null }
  else .error "TypeError: unexpected keyword argument"

/-- Returns the parking options in the format required by the API:
every field is emitted, including null ones. -/
def ParkingOptions.to_api_format (x : ParkingOptions) : Json :=
  .obj
    [("freeGarageParking", x.free_garage_parking),
     ("freeParkingLot", x.free_parking_lot),
     ("freeStreetParking", x.free_street_parking),
     ("paidGarageParking", x.paid_garage_parking),
     ("paidParkingLot", x.paid_parking_lot),
     ("paidStreetParking", x.paid_street_parking),
     ("valetParking", x.valet_parking)]

/-- Well-formed wire form of parking options carrying all seven keys. -/
def ParkingOptions.wf : Json → Bool
  | .obj
      [("freeGarageParking", a), ("freeParkingLot", b),
       ("freeStreetParking", c), ("paidGarageParking", e),
       ("paidParkingLot", f), ("paidStreetParking", g),
       ("valetParking", h)] =>
      isBoolOrNull a && isBoolOrNull b && isBoolOrNull c && isBoolOrNull e &&
      isBoolOrNull f && isBoolOrNull g && isBoolOrNull h
  | _ => false

/-- The payment options for a place. -/
structure PaymentOptions where
  accepts_cash_only : Json := .null
  accepts_credit_cards : Json := .null
  accepts_debit_cards : Json := .null
  accepts_nfc : Json := .null

/-- Creates a PaymentOptions from the data returned by the API. -/
def PaymentOptions.from_api_format (j : Json) :
    Except String PaymentOptions := do
  let kvs ← jsonAsObj j
  let d := toSnakeDict kvs
  if d.all (fun kv =>
      kv.1 == "accepts_cash_only" || kv.1 == "accepts_credit_cards" ||
      kv.1 == "accepts_debit_cards" || kv.1 == "accepts_nfc") then
    .ok
      { accepts_cash_only := (assocFind "accepts_cash_only" d).getD .null
        accepts_credit_cards := (assocFind "accepts_credit_cards" d).getD .null
        accepts_debit_cards := (assocFind "accepts_debit_cards" d).getD .null
        accepts_nfc := (assocFind "accepts_nfc" d).getD .null }
  else .error "TypeError: unexpected keyword argument"

/-- Returns the payment options in the format required by the API. -/
def PaymentOptions.to_api_format (x : PaymentOptions) : Json :=
  .obj
    [("acceptsCashOnly", x.accepts_cash_only),
     ("acceptsCreditCards", x.accepts_credit_cards),
     ("acceptsDebitCards", x.accepts_debit_cards),
     ("acceptsNfc", x.accepts_nfc)]

/-- Well-formed wire form of payment options carrying all four keys. -/
def PaymentOptions.wf : Json → Bool
  | .obj
      [("acceptsCashOnly", a), ("acceptsCreditCards", b),
       ("acceptsDebitCards", c), ("acceptsNfc", e)] =>
      isBoolOrNull a && isBoolOrNull b && isBoolOrNull c && isBoolOrNull e
  | _ => false

-- ------------------------------------------------------------------ --
-- Opening hours (places.py, lines 208 to 272)
-- ------------------------------------------------------------------ --

/-- A time of day, as built by datetime.time(hour, minute). -/
structure Time where
  hour : Nat
  minute : Nat
  deriving DecidableEq

/-- Construction of datetime.time(hour, minute): a ValueError outside
the valid ranges. -/
def time_mk (h m : Int) : Except String Time :=
  if 0 ≤ h ∧ h ≤ 23 ∧ 0 ≤ m ∧ m ≤ 59 then .ok ⟨h.toNat, m.toNat⟩
  else .error "ValueError: time value out of range"

/-- One opening interval of a day: optional opening and closing times,
where a missing side means the interval continues into an adjacent day. -/
abbrev DayPair := Option Time × Option Time

/-- The seven per-day lists of opening intervals. -/
abbrev Buckets := List (List DayPair)

/-- Appends an element to the list at a natural position, leaving the
outer list unchanged when the position is out of range. -/
def appendAt : List (List α) → Nat → α → List (List α)
  | [], _, _ => []
  | ys :: rest, 0, x => (ys ++ [x]) :: rest
  | ys :: rest, n + 1, x => ys :: appendAt rest n x

/-- Python list indexing for the append `periods[i].append(x)`: negative
positions count from the end, positions outside the list raise an
IndexError. -/
def pyAppendAt (b : List (List α)) (i : Int) (x : α) :
    Except String (List (List α)) :=
  if 0 ≤ i ∧ i < (b.length : Int) then .ok (appendAt b i.toNat x)
  else if -(b.length : Int) ≤ i ∧ i < 0 then
    .ok (appendAt b (i + (b.length : Int)).toNat x)
  else .error "IndexError: list index out of range"

/-- Wire day positions visited by `range(start_day, end_day + 1)`. -/
def spanIndexes (sd ed : Int) : List Int :=
  (List.range (ed + 1 - sd).toNat).map (fun k => sd + k)

/-- Body of the multi-day loop: the start day receives the opening time
with no close, the end day receives the closing time with no open, and
any day strictly between receives a fully open pair.  The hour and
minute fields are only read on the branch that needs them. -/
def daySpanStep (startv endv : Json) (sd ed : Int) (buckets : Buckets)
    (i : Int) : Except String Buckets := do
  if i = sd then do
    let s ← time_mk (← jsonAsInt (← jsonIndex startv "hour"))
      (← jsonAsInt (← jsonIndex startv "minute"))
    pyAppendAt buckets i (some s, none)
  else if i = ed then do
    let e ← time_mk (← jsonAsInt (← jsonIndex endv "hour"))
      (← jsonAsInt (← jsonIndex endv "minute"))
    pyAppendAt buckets i (none, some e)
  else pyAppendAt buckets i (none, none)

/-- Tests for the JSON null value. -/
def Json.isNull : Json → Bool
  | .null => true
  | _ => false

/-- The close entry of a period as seen by the source: dict.get returns
the Python None both when the key is absent and when its value is the
JSON null, so both collapse to none here. -/
def closeOf (pkvs : List (String × Json)) : Option Json :=
  match assocFind "close" pkvs with
  | none => none
  | some v => if v.isNull then none else some v

/-- Processing of one period whose close is present: a same-day period
is appended to its single day bucket, any other period is distributed by
the multi-day loop over `range(start_day, end_day + 1)`. -/
def processClosed (startv endv : Json) (buckets : Buckets) :
    Except String Buckets := do
  let start_day ← jsonAsInt (← jsonIndex startv "day")
  let end_day ← jsonAsInt (← jsonIndex endv "day")
  if start_day = end_day then do
    let s ← time_mk (← jsonAsInt (← jsonIndex startv "hour"))
      (← jsonAsInt (← jsonIndex startv "minute"))
    let e ← time_mk (← jsonAsInt (← jsonIndex endv "hour"))
      (← jsonAsInt (← jsonIndex endv "minute"))
    pyAppendAt buckets start_day (some s, some e)
  else
    (spanIndexes start_day end_day).foldlM
      (daySpanStep startv endv start_day end_day) buckets

/-- The loop over the wire periods.  `total` is the length of the whole
wire list, consulted by the open-24/7 guard.  A period whose close entry
is absent is the open-24/7 marker: with more than one wire period this
raises, otherwise a fully open pair is appended to all seven buckets and
the loop stops. -/
def processPeriods (total : Nat) (buckets : Buckets) :
    List Json → Except String Buckets
  | [] => .ok buckets
  | p :: rest => do
    let pkvs ← jsonAsObj p
    let startv ← match assocFind "open" pkvs with
      | some v => Except.ok v
      | none => Except.error "KeyError: open"
    match closeOf pkvs with
    | none =>
      if total > 1 then
        .error "If you see this message, please report it as a bug."
      else .ok (buckets.map (fun ys => ys ++ [(none, none)]))
    | some endv => do
      let buckets ← processClosed startv endv buckets
      processPeriods total buckets rest

/-- The final rotation `periods[1:] + [periods[0]]` moving the Sunday
bucket from the front to the back. -/
def rotateWeek (l : Buckets) : Buckets := l.drop 1 ++ l.take 1

/-- A wire period that the decoder treats as the open-24/7 marker: an
object with an open entry and no close entry. -/
def openAllDayMarker (p : Json) : Bool :=
  match jsonAsObj p with
  | .ok pkvs => (assocFind "open" pkvs).isSome && (closeOf pkvs).isNone
  | .error _ => false

/-- The opening hours of a place: seven Monday-first per-day lists of
opening intervals, plus the raw weekday description strings. -/
structure OpeningHours where
  periods : Buckets
  weekday_descriptions : Json

/-- Creates an OpeningHours from the data returned by the API: the wire
periods are distributed over seven Sunday-first buckets which are then
rotated to Monday-first. -/
def OpeningHours.from_api_format (j : Json) : Except String OpeningHours := do
  let wd ← jsonIndex j "weekdayDescriptions"
  let plist ← jsonAsArr (← jsonIndex j "periods")
  let buckets ← processPeriods plist.length (List.replicate 7 []) plist
  .ok ⟨rotateWeek buckets, wd⟩

-- ------------------------------------------------------------------ --
-- Photos and reviews (places.py, lines 296 to 364)
-- ------------------------------------------------------------------ --

/-- A point in time as carried by datetime.datetime: calendar fields plus
an optional fixed offset from UTC in minutes. -/
structure DateTime where
  year : Nat
  month : Nat
  day : Nat
  hour : Nat
  minute : Nat
  second : Nat
  microsecond : Nat
  utcoffset_minutes : Option Int
  deriving DecidableEq

/-- Decimal rendering of a natural number left-padded with zeros. -/
def padNum (width n : Nat) : String :=
  let s := toString n
  if s.length < width then
    ⟨List.replicate (width - s.length) '0'⟩ ++ s
  else s

/-- The ISO-8601 rendering produced by datetime.isoformat: fractional
seconds only when the microseconds are nonzero, an offset suffix only
for aware values. -/
def DateTime.isoformat (d : DateTime) : String :=
  padNum 4 d.year ++ "-" ++ padNum 2 d.month ++ "-" ++ padNum 2 d.day ++
  "T" ++ padNum 2 d.hour ++ ":" ++ padNum 2 d.minute ++ ":" ++
  padNum 2 d.second ++
  (if d.microsecond = 0 then "" else "." ++ padNum 6 d.microsecond) ++
  (match d.utcoffset_minutes with
   | none => ""
   | some off =>
     (if off < 0 then "-" else "+") ++ padNum 2 (off.natAbs / 60) ++ ":" ++
     padNum 2 (off.natAbs % 60))

/-- Numeric value of a decimal digit character. -/
def digitVal (c : Char) : Nat := c.toNat - ('0').toNat

/-- Value of a list of decimal digit characters. -/
def parseDigits (cs : List Char) : Nat :=
  cs.foldl (fun a c => a * 10 + digitVal c) 0

/-- Reads exactly `n` decimal digits from the front of the input,
returning their value and the remaining characters. -/
def readN (n : Nat) (cs : List Char) : Except String (Nat × List Char) :=
  let pre := cs.take n
  if pre.length = n && pre.all Char.isDigit then
    .ok (parseDigits pre, cs.drop n)
  else .error "ValueError: invalid isoformat string"

/-- Consumes one expected character from the front of the input. -/
def expectC (c : Char) (cs : List Char) : Except String (List Char) :=
  match cs with
  | c2 :: rest =>
    if c2 = c then .ok rest
    else .error "ValueError: invalid isoformat string"
  | [] => .error "ValueError: invalid isoformat string"

/-- Modelled from the spec: the external dateutil timestamp parser, which
the source applies to the publish time, restricted to the ISO-8601 shapes
the API produces (date, separator, time, optional fractional seconds,
optional Z or numeric offset). -/
def parseIsoDateTime (s : String) : Except String DateTime := do
  let cs := s.data
  let (y, cs) ← readN 4 cs
  let cs ← expectC '-' cs
  let (mo, cs) ← readN 2 cs
  let cs ← expectC '-' cs
  let (d, cs) ← readN 2 cs
  let cs ← expectC 'T' cs
  let (h, cs) ← readN 2 cs
  let cs ← expectC ':' cs
  let (mi, cs) ← readN 2 cs
  let cs ← expectC ':' cs
  let (se, cs) ← readN 2 cs
  let (us, cs) ← match cs with
    | '.' :: rest => readN 6 rest
    | _ => pure (0, cs)
  let off ← match cs with
    | [] => Except.ok Option.none
    | ['Z'] => Except.ok (some (0 : Int))
    | sign :: rest =>
      if sign = '+' ∨ sign = '-' then do
        let (oh, cs2) ← readN 2 rest
        let cs3 ← expectC ':' cs2
        let (om, cs4) ← readN 2 cs3
        if cs4.isEmpty then
          Except.ok
            (some ((if sign = '-' then (-1 : Int) else 1) * (oh * 60 + om)))
        else Except.error "ValueError: invalid isoformat string"
      else Except.error "ValueError: invalid isoformat string"
  .ok ⟨y, mo, d, h, mi, se, us, off⟩

/-- A photo of a place.  The field holding the authors keeps the
misspelt name it has in the source. -/
structure Photo where
  name : Json
  height : Json
  width : Json
  authot_attributions : List AuthorAttribution

/-- Creates a Photo from the data returned by the API. -/
def Photo.from_api_format (j : Json) : Except String Photo := do
  let name ← jsonIndex j "name"
  let width ← jsonIndex j "widthPx"
  let height ← jsonIndex j "heightPx"
  let authorsJson ← jsonAsArr (← jsonIndex j "authorAttributions")
  let authors ← authorsJson.mapM AuthorAttribution.from_api_format
  .ok ⟨name, height, width, authors⟩

/-- Returns the photo in the format required by the API. -/
def Photo.to_api_format (x : Photo) : Json :=
  .obj
    [("name", x.name), ("widthPx", x.width), ("heightPx", x.height),
     ("authorAttributions",
       .arr (x.authot_attributions.map AuthorAttribution.to_api_format))]

/-- A review of a place. -/
structure Review where
  name : Json
  relative_publish_time_description : Json
  rating : Json
  text : LocalizedString
  original_text : LocalizedString
  author_attribution : AuthorAttribution
  publish_time : DateTime

/-- Creates a Review from the data returned by the API: keys are
snake-cased, the three nested objects and the timestamp are decoded, and
the result is built by keyword arguments, so unknown or missing keys
fail. -/
def Review.from_api_format (j : Json) : Except String Review := do
  let kvs ← jsonAsObj j
  let d := toSnakeDict kvs
  let textJ ← match assocFind "text" d with
    | some v => Except.ok v
    | none => Except.error "KeyError: text"
  let text ← LocalizedString.from_api_format textJ
  let otJ ← match assocFind "original_text" d with
    | some v => Except.ok v
    | none => Except.error "KeyError: original_text"
  let original_text ← LocalizedString.from_api_format otJ
  let aaJ ← match assocFind "author_attribution" d with
    | some v => Except.ok v
    | none => Except.error "KeyError: author_attribution"
  let author_attribution ← AuthorAttribution.from_api_format aaJ
  let ptJ ← match assocFind "publish_time" d with
    | some v => Except.ok v
    | none => Except.error "KeyError: publish_time"
  let publish_time ← parseIsoDateTime (← jsonAsStr ptJ)
  if d.all (fun kv =>
      kv.1 == "name" || kv.1 == "relative_publish_time_description" ||
      kv.1 == "rating" || kv.1 == "text" || kv.1 == "original_text" ||
      kv.1 == "author_attribution" || kv.1 == "publish_time") then
    match assocFind "name" d, assocFind "relative_publish_time_description" d,
        assocFind "rating" d with
    | some n, some rd, some ra =>
        .ok ⟨n, rd, ra, text, original_text, author_attribution, publish_time⟩
    | _, _, _ => .error "TypeError: missing a required argument"
  else .error "TypeError: unexpected keyword argument"

/-- Conversion applied to a nested value that dataclasses.asdict has
already flattened to a plain dict: a plain dict has no to_api_format
method, so the attribute access raises AttributeError for every input. -/
def dictToApiFormat (_d : Json) : Except String Json :=
  .error "AttributeError: dict object has no attribute to_api_format"

/-- Dict form of a LocalizedString as produced by the recursive
dataclasses.asdict, with domain (snake case) keys. -/
def asdictLocalizedString (x : LocalizedString) : Json :=
  .obj [("text", x.text), ("language_code", x.language_code)]

/-- Dict form of an AuthorAttribution as produced by the recursive
dataclasses.asdict. -/
def asdictAuthorAttribution (x : AuthorAttribution) : Json :=
  .obj
    [("display_name", x.display_name), ("uri", x.uri),
     ("photo_uri", x.photo_uri)]

/-- Returns the review in the format required by the API.  The source
first applies dataclasses.asdict, which recursively converts the nested
dataclass fields text, original_text and author_attribution into plain
dicts; the subsequent per-field to_api_format calls are therefore made on
plain dicts. -/
def Review.to_api_format (r : Review) : Except String Json := do
  let text ← dictToApiFormat (asdictLocalizedString r.text)
  let original_text ← dictToApiFormat (asdictLocalizedString r.original_text)
  let author_attribution ← dictToApiFormat
    (asdictAuthorAttribution r.author_attribution)
  let publish_time := r.publish_time.isoformat
  .ok (.obj
    [("name", r.name),
     ("relativePublishTimeDescription", r.relative_publish_time_description),
     ("rating", r.rating),
     ("text", text),
     ("originalText", original_text),
     ("authorAttribution", author_attribution),
     ("publishTime", .str publish_time)])

-- ------------------------------------------------------------------ --
-- Place aggregate (places.py, lines 419 to 516 and 575 to 623)
-- ------------------------------------------------------------------ --

/-- Describes a place returned by the API.  Every field is optional and
defaults to absent.  Fields that the decoder dispatch converts carry
their decoded type; all remaining fields carry the raw wire value. -/
structure Place where
  id : Option Json := none
  name : Option Json := none
  accessibility_options : Option (List (String × Json)) := none
  address_components : Option (List AddressComponent) := none
  adr_format_address : Option Json := none
  business_status : Option BusinessStatus := none
  display_name : Option LocalizedString := none
  formatted_address : Option Json := none
  google_maps_uri : Option Json := none
  icon_background_color : Option Json := none
  icon_mask_base_uri : Option Json := none
  location : Option (Json × Json) := none
  photos : Option (List Photo) := none
  plus_code : Option PlusCode := none
  primary_type : Option Json := none
  primary_type_display_name : Option LocalizedString := none
  short_formatted_address : Option Json := none
  types : Option Json := none
  utc_offset_minutes : Option Json := none
  viewport : Option RectangularArea := none
  current_opening_hours : Option OpeningHours := none
  current_secondary_opening_hours : Option OpeningHours := none
  international_phone_number : Option Json := none
  national_phone_number : Option Json := none
  price_level : Option PriceLevel := none
  rating : Option Json := none
  regular_opening_hours : Option OpeningHours := none
  regular_secondary_opening_hours : Option OpeningHours := none
  user_rating_count : Option Json := none
  website_uri : Option Json := none
  allows_dogs : Option Json := none
  curbside_pickup : Option Json := none
  delivery : Option Json := none
  dine_in : Option Json := none
  good_for_children : Option Json := none
  good_for_groups : Option Json := none
  good_for_watching_sports : Option Json := none
  live_music : Option Json := none
  menu_for_children : Option Json := none
  parking_options : Option ParkingOptions := none
  payment_options : Option PaymentOptions := none
  outdoor_seating : Option Json := none
  reservable : Option Json := none
  restroom : Option Json := none
  reviews : Option (List Review) := none
  serves_beer : Option Json := none
  serves_breakfast : Option Json := none
  serves_brunch : Option Json := none
  serves_cocktails : Option Json := none
  serves_coffee : Option Json := none
  serves_desserts : Option Json := none
  serves_dinner : Option Json := none
  serves_lunch : Option Json := none
  serves_vegetarian_food : Option Json := none
  serves_wine : Option Json := none
  takeout : Option Json := none

/-- The names of the dataclass fields of Place, in declaration order:
the valid-field set used by the decoder and by the field mask builder. -/
def validFields : List String :=
  ["id", "name", "accessibility_options", "address_components",
   "adr_format_address", "business_status", "display_name",
   "formatted_address", "google_maps_uri", "icon_background_color",
   "icon_mask_base_uri", "location", "photos", "plus_code", "primary_type",
   "primary_type_display_name", "short_formatted_address", "types",
   "utc_offset_minutes", "viewport", "current_opening_hours",
   "current_secondary_opening_hours", "international_phone_number",
   "national_phone_number", "price_level", "rating",
   "regular_opening_hours", "regular_secondary_opening_hours",
   "user_rating_count", "website_uri", "allows_dogs", "curbside_pickup",
   "delivery", "dine_in", "good_for_children", "good_for_groups",
   "good_for_watching_sports", "live_music", "menu_for_children",
   "parking_options", "payment_options", "outdoor_seating", "reservable",
   "restroom", "reviews", "serves_beer", "serves_breakfast",
   "serves_brunch", "serves_cocktails", "serves_coffee", "serves_desserts",
   "serves_dinner", "serves_lunch", "serves_vegetarian_food",
   "serves_wine", "takeout"]

/-- One step of the Place decoder: the key is snake-cased, the per-field
dispatch of _from_api_format is applied, and the value is kept only when
the resulting key is a dataclass field (the source filters against the
valid-field set after the dispatch; every dispatch case is a valid field,
so merging the dispatch and the filter into one match is behaviour
preserving).  Unknown keys fall through to the final catch-all and are
dropped. -/
def placeDecodeStep (p : Place) (kv : String × Json) : Except String Place :=
  match snakecase kv.1 with
  | "id" => .ok { p with id := some kv.2 }
  | "name" => .ok { p with name := some kv.2 }
  | "accessibility_options" => do
    let kvs ← jsonAsObj kv.2
    .ok { p with accessibility_options := some (toSnakeDict kvs) }
  | "address_components" => do
    let xs ← jsonAsArr kv.2
    let v ← xs.mapM AddressComponent.from_api_format
    .ok { p with address_components := some v }
  | "adr_format_address" => .ok { p with adr_format_address := some kv.2 }
  | "business_status" => do
    let v ← BusinessStatus.from_api_format (← jsonAsStr kv.2)
    .ok { p with business_status := some v }
  | "display_name" => do
    let v ← LocalizedString.from_api_format kv.2
    .ok { p with display_name := some v }
  | "formatted_address" => .ok { p with formatted_address := some kv.2 }
  | "google_maps_uri" => .ok { p with google_maps_uri := some kv.2 }
  | "icon_background_color" => .ok { p with icon_background_color := some kv.2 }
  | "icon_mask_base_uri" => .ok { p with icon_mask_base_uri := some kv.2 }
  | "location" => do
    let la ← jsonIndex kv.2 "latitude"
    let lo ← jsonIndex kv.2 "longitude"
    .ok { p with location := some (la, lo) }
  | "photos" => do
    let xs ← jsonAsArr kv.2
    let v ← xs.mapM Photo.from_api_format
    .ok { p with photos := some v }
  | "plus_code" => do
    let v ← PlusCode.from_api_format kv.2
    .ok { p with plus_code := some v }
  | "primary_type" => .ok { p with primary_type := some kv.2 }
  | "primary_type_display_name" => do
    let v ← LocalizedString.from_api_format kv.2
    .ok { p with primary_type_display_name := some v }
  | "short_formatted_address" =>
    .ok { p with short_formatted_address := some kv.2 }
  | "types" => .ok { p with types := some kv.2 }
  | "utc_offset_minutes" => .ok { p with utc_offset_minutes := some kv.2 }
  | "viewport" => do
    let v ← RectangularArea.from_api_format kv.2
    .ok { p with viewport := some v }
  | "current_opening_hours" => do
    let v ← OpeningHours.from_api_format kv.2
    .ok { p with current_opening_hours := some v }
  | "current_secondary_opening_hours" => do
    let v ← OpeningHours.from_api_format kv.2
    .ok { p with current_secondary_opening_hours := some v }
  | "international_phone_number" =>
    .ok { p with international_phone_number := some kv.2 }
  | "national_phone_number" => .ok { p with national_phone_number := some kv.2 }
  | "price_level" => do
    let v ← PriceLevel.from_api_format (← jsonAsStr kv.2)
    .ok { p with price_level := some v }
  | "rating" => .ok { p with rating := some kv.2 }
  | "regular_opening_hours" => do
    let v ← OpeningHours.from_api_format kv.2
    .ok { p with regular_opening_hours := some v }
  | "regular_secondary_opening_hours" => do
    let v ← OpeningHours.from_api_format kv.2
    .ok { p with regular_secondary_opening_hours := some v }
  | "user_rating_count" => .ok { p with user_rating_count := some kv.2 }
  | "website_uri" => .ok { p with website_uri := some kv.2 }
  | "allows_dogs" => .ok { p with allows_dogs := some kv.2 }
  | "curbside_pickup" => .ok { p with curbside_pickup := some kv.2 }
  | "delivery" => .ok { p with delivery := some kv.2 }
  | "dine_in" => .ok { p with dine_in := some kv.2 }
  | "good_for_children" => .ok { p with good_for_children := some kv.2 }
  | "good_for_groups" => .ok { p with good_for_groups := some kv.2 }
  | "good_for_watching_sports" =>
    .ok { p with good_for_watching_sports := some kv.2 }
  | "live_music" => .ok { p with live_music := some kv.2 }
  | "menu_for_children" => .ok { p with menu_for_children := some kv.2 }
  | "parking_options" => do
    let v ← ParkingOptions.from_api_format kv.2
    .ok { p with parking_options := some v }
  | "payment_options" => do
    let v ← PaymentOptions.from_api_format kv.2
    .ok { p with payment_options := some v }
  | "outdoor_seating" => .ok { p with outdoor_seating := some kv.2 }
  | "reservable" => .ok { p with reservable := some kv.2 }
  | "restroom" => .ok { p with restroom := some kv.2 }
  | "reviews" => do
    let xs ← jsonAsArr kv.2
    let v ← xs.mapM Review.from_api_format
    .ok { p with reviews := some v }
  | "serves_beer" => .ok { p with serves_beer := some kv.2 }
  | "serves_breakfast" => .ok { p with serves_breakfast := some kv.2 }
  | "serves_brunch" => .ok { p with serves_brunch := some kv.2 }
  | "serves_cocktails" => .ok { p with serves_cocktails := some kv.2 }
  | "serves_coffee" => .ok { p with serves_coffee := some kv.2 }
  | "serves_desserts" => .ok { p with serves_desserts := some kv.2 }
  | "serves_dinner" => .ok { p with serves_dinner := some kv.2 }
  | "serves_lunch" => .ok { p with serves_lunch := some kv.2 }
  | "serves_vegetarian_food" =>
    .ok { p with serves_vegetarian_food := some kv.2 }
  | "serves_wine" => .ok { p with serves_wine := some kv.2 }
  | "takeout" => .ok { p with takeout := some kv.2 }
  | _ => .ok p

/-- Creates a Place from the decoded response object, folding the decode
step over the wire key-value pairs. -/
def Place.from_api_format (kvs : List (String × Json)) : Except String Place :=
  kvs.foldlM placeDecodeStep {}

-- ------------------------------------------------------------------ --
-- Field mask builder (places.py, lines 524 to 572)
-- ------------------------------------------------------------------ --

/-- Failure modes of the field mask builder, carrying the offending
names so the error lists every one of them, as the source message does. -/
inductive FieldMaskError where
  | noFields
  | invalidFields (names : List String)
  deriving DecidableEq

/-- The ValueError message text built by the source for each failure. -/
def fieldMaskErrorMsg : FieldMaskError → String
  | .noFields => "At least one field must be provided."
  | .invalidFields names => "Invalid field(s): " ++ String.intercalate ", " names

/-- Converts a field name to the corresponding API field name: camel
cased and, when requested, namespaced under places. -/
def to_api_name (field : String) (prependPlaces : Bool) : String :=
  let field := camelcase field
  if prependPlaces then "places." ++ field else field

/-- The duplicate-free list of first occurrences: a deterministic
stand-in for the Python set built from the requested names, whose
iteration order is arbitrary but fixed. -/
def pySet : List String → List String
  | [] => []
  | x :: rest => x :: (pySet rest).filter (fun y => y != x)

/-- Creates a field mask from the requested names.  The Python source
first collapses the input to a set, modelled by `pySet`. -/
def create_field_mask (fields : List String) (prependPlaces : Bool) :
    Except FieldMaskError String :=
  let fields := pySet fields
  if fields.length = 0 then .error .noFields
  else if fields.contains "*" then .ok "*"
  else
    let invalid := fields.filter (fun f => !(validFields.contains f))
    if invalid.length > 0 then .error (.invalidFields invalid)
    else
      .ok (String.intercalate ","
        (fields.map (fun f => to_api_name f prependPlaces)))

-- ------------------------------------------------------------------ --
-- Client request construction (_client.py, lines 135 to 267 and 318
-- to 376)
-- ------------------------------------------------------------------ --

/-- The sum of the two area variants accepted polymorphically. -/
inductive Area where
  | circular (c : CircularArea)
  | rectangular (r : RectangularArea)

/-- The outcome of the validation and request construction performed by
the text search operation before the request is sent: target url, api
key header, field mask header and JSON body. -/
structure TextSearchRequest where
  url : String
  api_key : String
  field_mask : String
  body : List (String × Json)

/-- Validation and request construction of search_places_by_text, up to
the point where the request would be handed to the transport.  The
checks run in source order: empty query, both areas given, page size
range, minimum rating range, FREE price level, then the field mask is
built for the headers, the body is assembled, and a circular restrict
area fails while the body is assembled. -/
def search_places_by_text (api_key query : String) (fields : List String)
    (included_type : Option String) (language_code : String)
    (bias_area restrict_area : Option Area) (page_size : Int)
    (next_page_token : Option String) (min_rating : Option Rat)
    (open_now : Bool) (price_levels : List PriceLevel) (rank_by : String) :
    Except String TextSearchRequest :=
  if query.length = 0 then .error "The query must not be empty."
  else if bias_area.isSome ∧ restrict_area.isSome then
    .error "You cannot specify both a bias area and a restrict area."
  else if ¬(0 < page_size ∧ page_size ≤ 20) then
    .error "The maximum number of results must be between in the range [1, 20]."
  else if min_rating.any (fun r => !(decide (0 ≤ r ∧ r ≤ 5))) then
    .error "The minimum rating must be between 0 and 5."
  else if price_levels.contains .free then
    .error "The FREE price level cannot be used in the price_levels argument."
  else
    match create_field_mask fields true with
    | .error e => .error (fieldMaskErrorMsg e)
    | .ok mask =>
      let body0 : List (String × Json) :=
        [("textQuery", .str query), ("languageCode", .str language_code),
         ("pageSize", .int page_size),
         ("rankPreference", .str rank_by.toUpper),
         ("openNow", .bool open_now)]
      let body1 := match included_type with
        | some t =>
          body0 ++ [("includedType", .str t), ("strictTypeFiltering", .bool true)]
        | none => body0
      let body2 := match next_page_token with
        | some t => body1 ++ [("pageToken", .str t)]
        | none => body1
      let body3 := match bias_area with
        | some (.circular c) =>
          body2 ++ [("locationBias", .obj [("circle", c.to_api_format)])]
        | some (.rectangular r) =>
          body2 ++ [("locationBias", .obj [("rectangle", r.to_api_format)])]
        | none => body2
      match restrict_area with
      | some (.circular _) => .error "The restrict area must be a rectangular area."
      | other =>
        let body4 := match other with
          | some (.rectangular r) =>
            body3 ++
              [("locationRestriction", .obj [("rectangle", r.to_api_format)])]
          | _ => body3
        let body5 := match min_rating with
          | some r => body4 ++ [("minRating", .float r)]
          | none => body4
        let body6 :=
          if price_levels.isEmpty then body5
          else body5 ++
            [("priceLevels",
              .arr (price_levels.map (fun l => Json.str l.to_api_format)))]
        .ok ⟨"https://places.googleapis.com/v1/places:searchText", api_key,
          mask, body6⟩

/-- The outcome of the validation and request construction performed by
get_photo_uri before the request is sent. -/
structure PhotoUriRequest where
  url : String
  api_key : String
  params : List (String × Json)

/-- Python str.strip with the slash character: removes slashes from both
ends. -/
def stripSlashes (s : String) : String :=
  ⟨((s.data.dropWhile (fun c => c = '/')).reverse.dropWhile
    (fun c => c = '/')).reverse⟩

/-- Validation and request construction of get_photo_uri, up to the
point where the request would be handed to the transport.  At least one
bound must be given and each given bound must lie in [1, 4800]; the
query parameters then carry the width bound when it is present, and the
height bound only otherwise. -/
def get_photo_uri (api_key : String) (photo : Photo)
    (max_width max_height : Option Int) : Except String PhotoUriRequest :=
  if max_width.isNone ∧ max_height.isNone then
    .error "At least one of max_width and max_height must be provided."
  else if max_width.any (fun w => !(decide (1 ≤ w ∧ w ≤ 4800))) then
    .error "The maximum width must be between 1 and 4800."
  else if max_height.any (fun h => !(decide (1 ≤ h ∧ h ≤ 4800))) then
    .error "The maximum height must be between 1 and 4800."
  else
    match photo.name with
    | .str s =>
      let name := stripSlashes s
      let params : List (String × Json) :=
        [("skipHttpRedirect", .str "true")] ++
        (match max_width with
         | some w => [("maxWidthPx", .int w)]
         | none =>
           match max_height with
           | some h => [("maxHeightPx", .int h)]
           | none => [])
      .ok ⟨"https://places.googleapis.com/v1/" ++ name ++ "/media", api_key,
        params⟩
    | _ => .error "AttributeError: the photo name has no strip method"

-- ------------------------------------------------------------------ --
-- Errors (_exceptions.py)
-- ------------------------------------------------------------------ --

/-- String payload of an optional JSON value, for the optional string
fields of the error body (the dataclass types them as optional strings;
other shapes lie outside the modelled error body). -/
def jsonOptStr : Option Json → Option String
  | some (.str s) => some s
  | _ => none

/-- Represents an error returned by the API: the HTTP status code plus
the optional message, status token and details payload of the decoded
error body. -/
structure APIError where
  status_code : Int
  message : Option String
  status : Option String
  details : Option Json

/-- Creates an error from an API response: each optional field is read
with dict.get and left absent when the body does not carry it. -/
def APIError.from_api_response (code : Int)
    (response : List (String × Json)) : APIError :=
  { status_code := code
    message := jsonOptStr (assocFind "message" response)
    status := jsonOptStr (assocFind "status" response)
    details := assocFind "details" response }

/-- The human-readable rendering: the message when it is present and
truthy, the fixed unknown-error text otherwise. -/
def APIError.str (e : APIError) : String :=
  "APIError: " ++
  (match e.message with
   | some m => if m.isEmpty then "Unknown error" else m
   | none => "Unknown error")

-- ------------------------------------------------------------------ --
-- Theorems
-- ------------------------------------------------------------------ --

set_option maxHeartbeats 3200000

/-- Bind on a successful Except value runs the continuation. -/
@[simp] theorem except_ok_bind (a : α) (f : α → Except String β) :
    (Except.ok a >>= f) = f a := rfl

/-- Bind on a failed Except value keeps the failure. -/
@[simp] theorem except_error_bind (e : String) (f : α → Except String β) :
    ((Except.error e : Except String α) >>= f) = .error e := rfl

/-- Boolean list containment agrees with list membership. -/
theorem contains_eq_true_iff (l : List String) (a : String) :
    l.contains a = true ↔ a ∈ l :=
  (List.contains_iff_exists_mem_beq ..).trans (by simp)

/-- Membership is preserved by the set model of the field mask input. -/
theorem mem_pySet {a : String} {l : List String} : a ∈ pySet l ↔ a ∈ l := by
  induction l with
  | nil => simp [pySet]
  | cons x rest ih =>
    simp only [pySet, List.mem_cons, List.mem_filter, ih, bne_iff_ne, ne_eq]
    constructor
    · rintro (rfl | ⟨h1, _⟩)
      · exact .inl rfl
      · exact .inr h1
    · rintro (rfl | h1)
      · exact .inl rfl
      · by_cases hax : a = x
        · exact .inl hax
        · exact .inr ⟨h1, hax⟩

/-- Construction of a time value succeeds on in-range hours and
minutes. -/
theorem time_mk_coe (h m : Nat) (hh : h ≤ 23) (hm : m ≤ 59) :
    time_mk h m = .ok ⟨h, m⟩ := by
  have hc : (0 ≤ (h : Int) ∧ (h : Int) ≤ 23 ∧ 0 ≤ (m : Int) ∧
      (m : Int) ≤ 59) :=
    ⟨by positivity, by omega, by positivity, by omega⟩
  simp [time_mk, hc]

/-- A period carrying the open-24/7 marker fails the period loop whenever
the wire list holds more than one period. -/
theorem processPeriods_marker_error (p : Json)
    (hp : openAllDayMarker p = true) :
    ∀ (l : List Json) (b : Buckets) (total : Nat), total > 1 → p ∈ l →
      isOk (processPeriods total b l) = false := by
  intro l
  induction l with
  | nil => intro b total ht hm; cases hm
  | cons q rest ih =>
    intro b total ht hm
    rcases List.mem_cons.1 hm with rfl | hmem
    · unfold openAllDayMarker at hp
      cases hobj : jsonAsObj p with
      | error e => rw [hobj] at hp; cases hp
      | ok pkvs =>
        rw [hobj] at hp
        simp only [Bool.and_eq_true, Option.isSome_iff_exists,
          Option.isNone_iff_eq_none] at hp
        obtain ⟨⟨sv, hsv⟩, hcl⟩ := hp
        simp [processPeriods, hobj, hsv, hcl, ht, isOk]
    · cases hobj : jsonAsObj q with
      | error e => simp [processPeriods, hobj, isOk]
      | ok pkvs =>
        cases hsv : assocFind "open" pkvs with
        | none => simp [processPeriods, hobj, hsv, isOk]
        | some sv =>
          cases hcl : closeOf pkvs with
          | none => simp [processPeriods, hobj, hsv, hcl, ht, isOk]
          | some endv =>
            cases hpc : processClosed sv endv b with
            | error e => simp [processPeriods, hobj, hsv, hcl, hpc, isOk]
            | ok b2 =>
              simpa [processPeriods, hobj, hsv, hcl, hpc]
                using ih b2 total ht hmem

/-- C1 as stated is false at this input: the wire object holds a
close-less period next to an ordinary one, and the decoder raises the
runtime guard instead of returning the all-open buckets. -/
theorem opening_hours_closeless_counterexample :
    OpeningHours.from_api_format (.obj
      [("weekdayDescriptions", .arr []),
       ("periods", .arr
         [.obj [("open", .obj [("day", .int 0), ("hour", .int 9),
            ("minute", .int 0)])],
          .obj [("open", .obj [("day", .int 1), ("hour", .int 9),
            ("minute", .int 0)]),
            ("close", .obj [("day", .int 1), ("hour", .int 17),
              ("minute", .int 0)])]])]) =
    .error "If you see this message, please report it as a bug." := rfl

/-- C1 (amended): when the close-less period is the only element of the
wire periods list, every one of the seven buckets holds exactly the
single fully open pair; when the wire list holds more than one period
and one of them is close-less, decoding fails instead of returning a
value. -/
theorem opening_hours_open_all_day_spec :
    (∀ (wd po : Json),
      OpeningHours.from_api_format (.obj
        [("weekdayDescriptions", wd),
         ("periods", .arr [.obj [("open", po)]])]) =
      .ok ⟨List.replicate 7 [(none, none)], wd⟩) ∧
    (∀ (kvs : List (String × Json)) (plist : List Json) (p : Json),
      assocFind "periods" kvs = some (.arr plist) →
      plist.length > 1 → p ∈ plist → openAllDayMarker p = true →
      isOk (OpeningHours.from_api_format (.obj kvs)) = false) := by
  constructor
  · intro wd po; rfl
  · intro kvs plist p hper hlen hmem hmark
    cases hwd : assocFind "weekdayDescriptions" kvs with
    | none =>
      simp [OpeningHours.from_api_format, jsonIndex, jsonAsObj, hwd, isOk]
    | some wd =>
      simp only [OpeningHours.from_api_format, jsonIndex, jsonAsObj, hwd,
        hper, except_ok_bind, jsonAsArr]
      cases hpp : processPeriods plist.length (List.replicate 7 []) plist with
      | error e => simp [hpp, isOk]
      | ok b =>
        exfalso
        have := processPeriods_marker_error p hmark plist
          (List.replicate 7 []) plist.length hlen hmem
        rw [hpp] at this
        simp [isOk] at this

/-- Closed instance of the open-24/7 theorem: a sole close-less period
fills all seven buckets, and a close-less period next to an ordinary one
fails. -/
theorem opening_hours_open_all_day_spec_witness :
    OpeningHours.from_api_format (.obj
      [("weekdayDescriptions", .arr []),
       ("periods", .arr [.obj [("open", .obj [("day", .int 0),
         ("hour", .int 0), ("minute", .int 0)])]])]) =
      .ok ⟨List.replicate 7 [(none, none)], .arr []⟩ ∧
    isOk (OpeningHours.from_api_format (.obj
      [("weekdayDescriptions", .arr []),
       ("periods", .arr
         [.obj [("open", .obj [("day", .int 2), ("hour", .int 8),
            ("minute", .int 30)])],
          .obj [("open", .obj [("day", .int 3), ("hour", .int 9),
            ("minute", .int 0)]),
            ("close", .obj [("day", .int 3), ("hour", .int 17),
              ("minute", .int 0)])]])])) = false := by
  constructor
  · exact opening_hours_open_all_day_spec.1 (.arr []) _
  · exact opening_hours_open_all_day_spec.2 _ _
      (.obj [("open", .obj [("day", .int 2), ("hour", .int 8),
        ("minute", .int 30)])])
      rfl (by decide) (by simp) rfl

/-- C2: a same-day period with wire day d lands as the single pair of
its opening and closing times in Monday-based bucket (d + 6) mod 7 with
every other bucket empty, and a period closing one wire day later puts
the dangling open pair in bucket (d + 6) mod 7 and the dangling close
pair in bucket d. -/
theorem opening_hours_day_placement_spec :
    (∀ (wd : Json) (d h1 m1 h2 m2 : Nat),
      d < 7 → h1 ≤ 23 → m1 ≤ 59 → h2 ≤ 23 → m2 ≤ 59 →
      OpeningHours.from_api_format (.obj
        [("weekdayDescriptions", wd),
         ("periods", .arr
           [.obj [("open", .obj [("day", .int d), ("hour", .int h1),
              ("minute", .int m1)]),
             ("close", .obj [("day", .int d), ("hour", .int h2),
              ("minute", .int m2)])]])]) =
      .ok ⟨(List.range 7).map (fun i =>
        if i = (d + 6) % 7 then [(some ⟨h1, m1⟩, some ⟨h2, m2⟩)] else []),
        wd⟩) ∧
    (∀ (wd : Json) (d h1 m1 h2 m2 : Nat),
      d + 1 < 7 → h1 ≤ 23 → m1 ≤ 59 → h2 ≤ 23 → m2 ≤ 59 →
      OpeningHours.from_api_format (.obj
        [("weekdayDescriptions", wd),
         ("periods", .arr
           [.obj [("open", .obj [("day", .int d), ("hour", .int h1),
              ("minute", .int m1)]),
             ("close", .obj [("day", .int (d + 1)), ("hour", .int h2),
              ("minute", .int m2)])]])]) =
      .ok ⟨(List.range 7).map (fun i =>
        if i = (d + 6) % 7 then [(some ⟨h1, m1⟩, none)]
        else if i = d then [(none, some ⟨h2, m2⟩)] else []),
        wd⟩) := by
  constructor
  · intro wd d h1 m1 h2 m2 hd hh1 hm1 hh2 hm2
    interval_cases d <;>
      simp [OpeningHours.from_api_format, processPeriods, processClosed,
        jsonIndex, jsonAsObj, jsonAsArr, assocFind, closeOf, Json.isNull,
        jsonAsInt, spanIndexes, daySpanStep, pyAppendAt, appendAt, rotateWeek,
        time_mk_coe h1 m1 hh1 hm1, time_mk_coe h2 m2 hh2 hm2, List.range_succ]
  · intro wd d h1 m1 h2 m2 hd hh1 hm1 hh2 hm2
    have hd6 : d < 6 := by omega
    clear hd
    interval_cases d <;>
      simp [OpeningHours.from_api_format, processPeriods, processClosed,
        jsonIndex, jsonAsObj, jsonAsArr, assocFind, closeOf, Json.isNull,
        jsonAsInt, spanIndexes, daySpanStep, pyAppendAt, appendAt, rotateWeek,
        time_mk_coe h1 m1 hh1 hm1, time_mk_coe h2 m2 hh2 hm2, List.range_succ]

/-- Closed instance of the day placement theorem at the two inputs the
claim names: a Sunday period 09:00 to 17:00 lands in bucket 6 alone, and
a Monday 23:00 to Tuesday 01:00 period yields the dangling pairs in
buckets 0 and 1. -/
theorem opening_hours_day_placement_spec_witness :
    OpeningHours.from_api_format (.obj
      [("weekdayDescriptions", .arr []),
       ("periods", .arr
         [.obj [("open", .obj [("day", .int 0), ("hour", .int 9),
            ("minute", .int 0)]),
           ("close", .obj [("day", .int 0), ("hour", .int 17),
            ("minute", .int 0)])]])]) =
      .ok ⟨(List.range 7).map (fun i =>
        if i = (0 + 6) % 7 then [(some ⟨9, 0⟩, some ⟨17, 0⟩)] else []),
        .arr []⟩ ∧
    OpeningHours.from_api_format (.obj
      [("weekdayDescriptions", .arr []),
       ("periods", .arr
         [.obj [("open", .obj [("day", .int 1), ("hour", .int 23),
            ("minute", .int 0)]),
           ("close", .obj [("day", .int (1 + 1)), ("hour", .int 1),
            ("minute", .int 0)])]])]) =
      .ok ⟨(List.range 7).map (fun i =>
        if i = (1 + 6) % 7 then [(some ⟨23, 0⟩, none)]
        else if i = 1 then [(none, some ⟨1, 0⟩)] else []),
        .arr []⟩ := by
  constructor
  · exact opening_hours_day_placement_spec.1 (.arr []) 0 9 0 17 0
      (by omega) (by omega) (by omega) (by omega) (by omega)
  · exact opening_hours_day_placement_spec.2 (.arr []) 1 23 0 1 0
      (by omega) (by omega) (by omega) (by omega) (by omega)

/-- A period whose close day lies strictly before its open day leaves
the buckets unchanged: the multi-day loop runs over an empty range. -/
theorem processClosed_wrap (startv endv : Json) (sd ed : Int) (b : Buckets)
    (hs : jsonIndex startv "day" = .ok (.int sd))
    (he : jsonIndex endv "day" = .ok (.int ed))
    (hlt : ed < sd) :
    processClosed startv endv b = .ok b := by
  have hne : ¬(sd = ed) := by omega
  have hspan : spanIndexes sd ed = [] := by
    simp [spanIndexes, show (ed + 1 - sd).toNat = 0 by omega]
  simp [processClosed, hs, he, jsonAsInt, hne, hspan]
  rfl

/-- When no period carries the open-24/7 marker, the period loop never
consults the total length of the wire list. -/
theorem processPeriods_total_irrelevant (l : List Json)
    (hnc : ∀ q ∈ l, openAllDayMarker q = false) (b : Buckets) (t1 t2 : Nat) :
    processPeriods t1 b l = processPeriods t2 b l := by
  induction l generalizing b with
  | nil => rfl
  | cons q rest ih =>
    cases hobj : jsonAsObj q with
    | error e => simp [processPeriods, hobj]
    | ok pkvs =>
      cases hsv : assocFind "open" pkvs with
      | none => simp [processPeriods, hobj, hsv]
      | some sv =>
        cases hcl : closeOf pkvs with
        | none =>
          exfalso
          have hq : openAllDayMarker q = true := by
            simp [openAllDayMarker, hobj, hsv, hcl]
          simpa [hq] using hnc q (List.mem_cons_self ..)
        | some endv =>
          cases hpc : processClosed sv endv b with
          | error e => simp [processPeriods, hobj, hsv, hcl, hpc]
          | ok b2 =>
            simpa [processPeriods, hobj, hsv, hcl, hpc] using
              ih (fun q2 hq2 => hnc q2 (List.mem_cons_of_mem _ hq2)) b2

/-- Dropping a week-wrapping period from the wire list leaves the period
loop result unchanged, for any pair of total lengths, provided no other
period carries the open-24/7 marker. -/
theorem processPeriods_skip_wrap (p : Json) (pkvs : List (String × Json))
    (sv ev : Json) (sd ed : Int)
    (hobjp : jsonAsObj p = .ok pkvs)
    (hsvp : assocFind "open" pkvs = some sv)
    (hclp : closeOf pkvs = some ev)
    (hs : jsonIndex sv "day" = .ok (.int sd))
    (he : jsonIndex ev "day" = .ok (.int ed))
    (hlt : ed < sd) :
    ∀ (l1 l2 : List Json), (∀ q ∈ l1 ++ l2, openAllDayMarker q = false) →
    ∀ (b : Buckets) (t1 t2 : Nat),
      processPeriods t1 b (l1 ++ p :: l2) =
        processPeriods t2 b (l1 ++ l2) := by
  intro l1
  induction l1 with
  | nil =>
    intro l2 hnc b t1 t2
    simp only [List.nil_append]
    simp only [processPeriods, hobjp, hsvp, hclp, except_ok_bind,
      processClosed_wrap sv ev sd ed b hs he hlt]
    exact processPeriods_total_irrelevant l2 hnc b t1 t2
  | cons x l1 ih =>
    intro l2 hnc b t1 t2
    have hncx := hnc x (by simp)
    have hnc2 : ∀ q ∈ l1 ++ l2, openAllDayMarker q = false := fun q hq =>
      hnc q (List.mem_cons_of_mem _ hq)
    simp only [List.cons_append]
    cases hobj : jsonAsObj x with
    | error e => simp [processPeriods, hobj]
    | ok xkvs =>
      cases hsv : assocFind "open" xkvs with
      | none => simp [processPeriods, hobj, hsv]
      | some sx =>
        cases hcl : closeOf xkvs with
        | none =>
          exfalso
          have hx : openAllDayMarker x = true := by
            simp [openAllDayMarker, hobj, hsv, hcl]
          simp [hx] at hncx
        | some ex =>
          cases hpc : processClosed sx ex b with
          | error e => simp [processPeriods, hobj, hsv, hcl, hpc]
          | ok b2 =>
            simpa [processPeriods, hobj, hsv, hcl, hpc] using
              ih l2 hnc2 b2 t1 t2

/-- Reduction of the opening hours decoder on a canonical wire object to
the period loop. -/
theorem from_api_format_reduce (wd : Json) (plist : List Json) :
    OpeningHours.from_api_format (.obj
      [("weekdayDescriptions", wd), ("periods", .arr plist)]) =
    (processPeriods plist.length (List.replicate 7 []) plist).map
      (fun buckets => ⟨rotateWeek buckets, wd⟩) := by
  cases h : processPeriods plist.length (List.replicate 7 []) plist with
  | error e =>
    simp only [List.replicate] at h
    simp [OpeningHours.from_api_format, jsonIndex, jsonAsObj, assocFind,
      jsonAsArr, List.replicate, h, Except.map]
  | ok b =>
    simp only [List.replicate] at h
    simp [OpeningHours.from_api_format, jsonIndex, jsonAsObj, assocFind,
      jsonAsArr, List.replicate, h, Except.map]

/-- C10 as stated is false at this input: the wire list pairs a
close-less period with a week-wrapping one, and decoding fails, while
decoding with the wrapping period removed succeeds. -/
theorem opening_hours_wrap_counterexample :
    isOk (OpeningHours.from_api_format (.obj
      [("weekdayDescriptions", .arr []),
       ("periods", .arr
         [.obj [("open", .obj [("day", .int 1), ("hour", .int 0),
            ("minute", .int 0)])],
          .obj [("open", .obj [("day", .int 6), ("hour", .int 9),
            ("minute", .int 0)]),
            ("close", .obj [("day", .int 0), ("hour", .int 17),
              ("minute", .int 0)])]])])) = false ∧
    isOk (OpeningHours.from_api_format (.obj
      [("weekdayDescriptions", .arr []),
       ("periods", .arr
         [.obj [("open", .obj [("day", .int 1), ("hour", .int 0),
            ("minute", .int 0)])]])])) = true := ⟨rfl, rfl⟩

/-- C10 (amended): a period whose close day lies strictly before its
open day is appended to no bucket, and decoding equals decoding with
that period removed, provided no other period of the wire list carries
the open-24/7 marker. -/
theorem opening_hours_wrap_period_spec :
    ∀ (wd : Json) (l1 l2 : List Json) (p : Json)
      (pkvs : List (String × Json)) (sv ev : Json) (sd ed : Int),
      jsonAsObj p = .ok pkvs →
      assocFind "open" pkvs = some sv →
      closeOf pkvs = some ev →
      jsonIndex sv "day" = .ok (.int sd) →
      jsonIndex ev "day" = .ok (.int ed) →
      ed < sd →
      (∀ q ∈ l1 ++ l2, openAllDayMarker q = false) →
      OpeningHours.from_api_format (.obj
        [("weekdayDescriptions", wd), ("periods", .arr (l1 ++ p :: l2))]) =
      OpeningHours.from_api_format (.obj
        [("weekdayDescriptions", wd), ("periods", .arr (l1 ++ l2))]) := by
  intro wd l1 l2 p pkvs sv ev sd ed hobjp hsvp hclp hs he hlt hnc
  rw [from_api_format_reduce, from_api_format_reduce,
    processPeriods_skip_wrap p pkvs sv ev sd ed hobjp hsvp hclp hs he hlt
      l1 l2 hnc (List.replicate 7 []) (l1 ++ p :: l2).length
      (l1 ++ l2).length]

/-- Closed instance of the wrap period theorem: adding a Saturday to
Sunday wrapping period to a one-period list leaves the decode result
unchanged. -/
theorem opening_hours_wrap_period_spec_witness :
    OpeningHours.from_api_format (.obj
      [("weekdayDescriptions", .arr []),
       ("periods", .arr
         [.obj [("open", .obj [("day", .int 2), ("hour", .int 9),
            ("minute", .int 0)]),
            ("close", .obj [("day", .int 2), ("hour", .int 17),
              ("minute", .int 0)])],
          .obj [("open", .obj [("day", .int 6), ("hour", .int 22),
            ("minute", .int 0)]),
            ("close", .obj [("day", .int 0), ("hour", .int 2),
              ("minute", .int 0)])]])]) =
    OpeningHours.from_api_format (.obj
      [("weekdayDescriptions", .arr []),
       ("periods", .arr
         [.obj [("open", .obj [("day", .int 2), ("hour", .int 9),
            ("minute", .int 0)]),
            ("close", .obj [("day", .int 2), ("hour", .int 17),
              ("minute", .int 0)])]])]) := by
  exact opening_hours_wrap_period_spec (.arr [])
    [.obj [("open", .obj [("day", .int 2), ("hour", .int 9),
      ("minute", .int 0)]),
      ("close", .obj [("day", .int 2), ("hour", .int 17),
        ("minute", .int 0)])]]
    []
    (.obj [("open", .obj [("day", .int 6), ("hour", .int 22),
      ("minute", .int 0)]),
      ("close", .obj [("day", .int 0), ("hour", .int 2),
        ("minute", .int 0)])])
    _ _ _ 6 0 rfl rfl rfl rfl rfl (by omega) (by decide)

/-- C3: the field mask builder fails on an empty request set, returns
exactly the wildcard for the singleton wildcard set, fails listing every
offending name when a wildcard-free set contains unknown names, and
returns places.rating for the rating field with the prefix enabled. -/
theorem create_field_mask_spec :
    (∀ pre : Bool, create_field_mask [] pre = .error .noFields) ∧
    (∀ pre : Bool, create_field_mask ["*"] pre = .ok "*") ∧
    (∀ (fields : List String) (pre : Bool),
      "*" ∉ fields →
      (∃ f ∈ fields, f ∉ validFields) →
      ∃ names, create_field_mask fields pre = .error (.invalidFields names) ∧
        ∀ f, f ∈ names ↔ f ∈ fields ∧ f ∉ validFields) ∧
    create_field_mask ["rating"] true = .ok "places.rating" := by
  refine ⟨fun _ => rfl, fun pre => rfl, ?_, rfl⟩
  intro fields pre hstar ⟨f0, hf0mem, hf0inv⟩
  have hmem : f0 ∈ pySet fields := mem_pySet.2 hf0mem
  have hlen : ¬(pySet fields).length = 0 := by
    simpa [List.length_eq_zero] using List.ne_nil_of_mem hmem
  have hstar2 : ¬((pySet fields).contains "*" = true) := by
    rw [contains_eq_true_iff, mem_pySet]
    exact hstar
  have hinvmem : f0 ∈ (pySet fields).filter
      (fun f => !(validFields.contains f)) := by
    refine List.mem_filter.2 ⟨hmem, ?_⟩
    simp [contains_eq_true_iff, hf0inv]
  have hinvne : ((pySet fields).filter
      (fun f => !(validFields.contains f))).length > 0 :=
    List.length_pos.2 (List.ne_nil_of_mem hinvmem)
  refine ⟨(pySet fields).filter (fun f => !(validFields.contains f)), ?_, ?_⟩
  · simp only [create_field_mask, if_neg hlen, if_neg hstar2, if_pos hinvne]
  · intro f
    simp [List.mem_filter, mem_pySet, contains_eq_true_iff]

/-- Closed instance of the field mask theorem at the unknown field. -/
theorem create_field_mask_spec_witness :
    ∃ names, create_field_mask ["unknown_field"] true =
        .error (.invalidFields names) ∧
      ∀ f, f ∈ names ↔ f ∈ ["unknown_field"] ∧ f ∉ validFields := by
  exact create_field_mask_spec.2.2.1 ["unknown_field"] true (by decide)
    ⟨"unknown_field", by decide⟩
theorem circularArea_rt_dom (x : CircularArea) (hx : x.post_init_ok = true) :
    CircularArea.from_api_format x.to_api_format = .ok x := by
  simp [CircularArea.from_api_format, CircularArea.to_api_format, jsonIndex,
    jsonAsObj, jsonAsInt, assocFind, hx]

theorem circularArea_rt_wire (w : Json) (hw : CircularArea.wf w = true) :
    (CircularArea.from_api_format w).map CircularArea.to_api_format =
      .ok w := by
  unfold CircularArea.wf at hw
  split at hw
  · simp only [Bool.and_eq_true, decide_eq_true_eq] at hw
    simp [CircularArea.from_api_format, CircularArea.to_api_format,
      CircularArea.post_init_ok, jsonIndex, jsonAsObj, jsonAsInt, assocFind,
      hw.1, hw.2, Except.map]
  · cases hw

theorem rectangularArea_rt_dom (x : RectangularArea) :
    RectangularArea.from_api_format x.to_api_format = .ok x := rfl

theorem rectangularArea_rt_wire (w : Json)
    (hw : RectangularArea.wf w = true) :
    (RectangularArea.from_api_format w).map RectangularArea.to_api_format =
      .ok w := by
  unfold RectangularArea.wf at hw
  split at hw
  · rfl
  · cases hw

theorem localizedString_rt_dom (x : LocalizedString) :
    LocalizedString.from_api_format x.to_api_format = .ok x := rfl

theorem localizedString_rt_wire (w : Json) (hw : LocalizedString.wf w = true) :
    (LocalizedString.from_api_format w).map LocalizedString.to_api_format =
      .ok w := by
  unfold LocalizedString.wf at hw
  split at hw
  · rfl
  · cases hw

theorem addressComponent_rt_dom (x : AddressComponent) :
    AddressComponent.from_api_format x.to_api_format = .ok x := rfl

theorem addressComponent_rt_wire (w : Json)
    (hw : AddressComponent.wf w = true) :
    (AddressComponent.from_api_format w).map AddressComponent.to_api_format =
      .ok w := by
  unfold AddressComponent.wf at hw
  split at hw
  · rfl
  · cases hw

theorem plusCode_rt_dom (x : PlusCode) :
    PlusCode.from_api_format x.to_api_format = .ok x := rfl

theorem plusCode_rt_wire (w : Json) (hw : PlusCode.wf w = true) :
    (PlusCode.from_api_format w).map PlusCode.to_api_format = .ok w := by
  unfold PlusCode.wf at hw
  split at hw
  · rfl
  · cases hw

theorem authorAttribution_rt_dom (x : AuthorAttribution) :
    AuthorAttribution.from_api_format x.to_api_format = .ok x := rfl

theorem authorAttribution_rt_wire (w : Json)
    (hw : AuthorAttribution.wf w = true) :
    (AuthorAttribution.from_api_format w).map AuthorAttribution.to_api_format =
      .ok w := by
  unfold AuthorAttribution.wf at hw
  split at hw
  · rfl
  · cases hw

theorem parkingOptions_rt_dom (x : ParkingOptions) :
    ParkingOptions.from_api_format x.to_api_format = .ok x := rfl

theorem parkingOptions_rt_wire (w : Json) (hw : ParkingOptions.wf w = true) :
    (ParkingOptions.from_api_format w).map ParkingOptions.to_api_format =
      .ok w := by
  unfold ParkingOptions.wf at hw
  split at hw
  · rfl
  · cases hw

theorem paymentOptions_rt_dom (x : PaymentOptions) :
    PaymentOptions.from_api_format x.to_api_format = .ok x := rfl

theorem paymentOptions_rt_wire (w : Json) (hw : PaymentOptions.wf w = true) :
    (PaymentOptions.from_api_format w).map PaymentOptions.to_api_format =
      .ok w := by
  unfold PaymentOptions.wf at hw
  split at hw
  · rfl
  · cases hw

theorem priceLevel_rt_dom (x : PriceLevel) :
    PriceLevel.from_api_format x.to_api_format = .ok x := by
  cases x <;> rfl

theorem priceLevel_rt_wire (s : String) (hs : s ∈ priceLevelWire) :
    (PriceLevel.from_api_format s).map PriceLevel.to_api_format = .ok s := by
  simp only [priceLevelWire, List.mem_cons, List.not_mem_nil, or_false] at hs
  rcases hs with rfl | rfl | rfl | rfl | rfl | rfl <;> rfl

theorem businessStatus_rt_dom (x : BusinessStatus) :
    BusinessStatus.from_api_format x.to_api_format = .ok x := by
  cases x <;> rfl

theorem businessStatus_rt_wire (s : String) (hs : s ∈ businessStatusWire) :
    (BusinessStatus.from_api_format s).map BusinessStatus.to_api_format =
      .ok s := by
  simp only [businessStatusWire, List.mem_cons, List.not_mem_nil, or_false]
    at hs
  rcases hs with rfl | rfl | rfl <;> rfl

/-- C4 (amended): the domain round trip holds for the ten value types
(with the construction invariant for the circular area), and the wire
round trip holds for every well-formed wire value carrying all of the
keys of its type; wire values omitting optional keys re-encode with
those keys present, as the counterexample shows. -/
theorem value_object_round_trip_spec :
    (∀ x : CircularArea, x.post_init_ok = true →
      CircularArea.from_api_format x.to_api_format = .ok x) ∧
    (∀ w, CircularArea.wf w = true →
      (CircularArea.from_api_format w).map CircularArea.to_api_format =
        .ok w) ∧
    (∀ x : RectangularArea,
      RectangularArea.from_api_format x.to_api_format = .ok x) ∧
    (∀ w, RectangularArea.wf w = true →
      (RectangularArea.from_api_format w).map RectangularArea.to_api_format =
        .ok w) ∧
    (∀ x : LocalizedString,
      LocalizedString.from_api_format x.to_api_format = .ok x) ∧
    (∀ w, LocalizedString.wf w = true →
      (LocalizedString.from_api_format w).map LocalizedString.to_api_format =
        .ok w) ∧
    (∀ x : AddressComponent,
      AddressComponent.from_api_format x.to_api_format = .ok x) ∧
    (∀ w, AddressComponent.wf w = true →
      (AddressComponent.from_api_format w).map AddressComponent.to_api_format =
        .ok w) ∧
    (∀ x : PlusCode, PlusCode.from_api_format x.to_api_format = .ok x) ∧
    (∀ w, PlusCode.wf w = true →
      (PlusCode.from_api_format w).map PlusCode.to_api_format = .ok w) ∧
    (∀ x : AuthorAttribution,
      AuthorAttribution.from_api_format x.to_api_format = .ok x) ∧
    (∀ w, AuthorAttribution.wf w = true →
      (AuthorAttribution.from_api_format w).map
        AuthorAttribution.to_api_format = .ok w) ∧
    (∀ x : ParkingOptions,
      ParkingOptions.from_api_format x.to_api_format = .ok x) ∧
    (∀ w, ParkingOptions.wf w = true →
      (ParkingOptions.from_api_format w).map ParkingOptions.to_api_format =
        .ok w) ∧
    (∀ x : PaymentOptions,
      PaymentOptions.from_api_format x.to_api_format = .ok x) ∧
    (∀ w, PaymentOptions.wf w = true →
      (PaymentOptions.from_api_format w).map PaymentOptions.to_api_format =
        .ok w) ∧
    (∀ x : PriceLevel, PriceLevel.from_api_format x.to_api_format = .ok x) ∧
    (∀ s ∈ priceLevelWire,
      (PriceLevel.from_api_format s).map PriceLevel.to_api_format = .ok s) ∧
    (∀ x : BusinessStatus,
      BusinessStatus.from_api_format x.to_api_format = .ok x) ∧
    (∀ s ∈ businessStatusWire,
      (BusinessStatus.from_api_format s).map BusinessStatus.to_api_format =
        .ok s) :=
  ⟨circularArea_rt_dom, circularArea_rt_wire, rectangularArea_rt_dom,
   rectangularArea_rt_wire, localizedString_rt_dom, localizedString_rt_wire,
   addressComponent_rt_dom, addressComponent_rt_wire, plusCode_rt_dom,
   plusCode_rt_wire, authorAttribution_rt_dom, authorAttribution_rt_wire,
   parkingOptions_rt_dom, parkingOptions_rt_wire, paymentOptions_rt_dom,
   paymentOptions_rt_wire, priceLevel_rt_dom, priceLevel_rt_wire,
   businessStatus_rt_dom, businessStatus_rt_wire⟩

/-- C4 as stated is false at this input: the well-formed wire author
attribution omitting the optional uri and photoUri keys decodes
successfully but re-encodes with all three keys present. -/
theorem value_object_round_trip_counterexample :
    (AuthorAttribution.from_api_format (.obj [("displayName", .str "A")]) =
      .ok ⟨.str "A", .null, .null⟩) ∧
    (AuthorAttribution.from_api_format (.obj [("displayName", .str "A")])).map
        AuthorAttribution.to_api_format ≠
      .ok (.obj [("displayName", .str "A")]) := by
  refine ⟨rfl, ?_⟩
  have h1 : (AuthorAttribution.from_api_format
      (.obj [("displayName", .str "A")])).map AuthorAttribution.to_api_format =
      .ok (.obj [("displayName", .str "A"), ("uri", .null),
        ("photoUri", .null)]) := rfl
  rw [h1]
  intro h
  injection h with h2
  injection h2 with h3
  simp at h3

/-- Closed instance of the round trip theorem, one wire value per type
with every key present, plus the domain instance of the circular
area. -/
theorem value_object_round_trip_spec_witness :
    CircularArea.from_api_format
        (CircularArea.to_api_format ⟨(.float 1, .float 2), 500⟩) =
      .ok ⟨(.float 1, .float 2), 500⟩ ∧
    (CircularArea.from_api_format (.obj
        [("center", .obj [("latitude", .float 1), ("longitude", .float 2)]),
         ("radius", .int 500)])).map CircularArea.to_api_format =
      .ok (.obj
        [("center", .obj [("latitude", .float 1), ("longitude", .float 2)]),
         ("radius", .int 500)]) ∧
    (RectangularArea.from_api_format (.obj
        [("low", .obj [("latitude", .float 1), ("longitude", .float 2)]),
         ("high", .obj [("latitude", .float 3), ("longitude", .float 4)])])).map
        RectangularArea.to_api_format =
      .ok (.obj
        [("low", .obj [("latitude", .float 1), ("longitude", .float 2)]),
         ("high", .obj [("latitude", .float 3), ("longitude", .float 4)])]) ∧
    (LocalizedString.from_api_format (.obj
        [("text", .str "Pizza"), ("languageCode", .str "en")])).map
        LocalizedString.to_api_format =
      .ok (.obj [("text", .str "Pizza"), ("languageCode", .str "en")]) ∧
    (AddressComponent.from_api_format (.obj
        [("longText", .str "Main Street"), ("shortText", .str "Main St"),
         ("types", .arr [.str "route"]), ("languageCode", .str "en")])).map
        AddressComponent.to_api_format =
      .ok (.obj
        [("longText", .str "Main Street"), ("shortText", .str "Main St"),
         ("types", .arr [.str "route"]), ("languageCode", .str "en")]) ∧
    (PlusCode.from_api_format (.obj
        [("globalCode", .str "8FVC9G8F+5W"),
         ("compoundCode", .str "9G8F+5W Zurich")])).map
        PlusCode.to_api_format =
      .ok (.obj
        [("globalCode", .str "8FVC9G8F+5W"),
         ("compoundCode", .str "9G8F+5W Zurich")]) ∧
    (AuthorAttribution.from_api_format (.obj
        [("displayName", .str "A"), ("uri", .null),
         ("photoUri", .str "u")])).map AuthorAttribution.to_api_format =
      .ok (.obj
        [("displayName", .str "A"), ("uri", .null),
         ("photoUri", .str "u")]) ∧
    (ParkingOptions.from_api_format (.obj
        [("freeGarageParking", .bool true), ("freeParkingLot", .null),
         ("freeStreetParking", .bool false), ("paidGarageParking", .null),
         ("paidParkingLot", .null), ("paidStreetParking", .null),
         ("valetParking", .bool true)])).map ParkingOptions.to_api_format =
      .ok (.obj
        [("freeGarageParking", .bool true), ("freeParkingLot", .null),
         ("freeStreetParking", .bool false), ("paidGarageParking", .null),
         ("paidParkingLot", .null), ("paidStreetParking", .null),
         ("valetParking", .bool true)]) ∧
    (PaymentOptions.from_api_format (.obj
        [("acceptsCashOnly", .bool false), ("acceptsCreditCards", .bool true),
         ("acceptsDebitCards", .null), ("acceptsNfc", .bool true)])).map
        PaymentOptions.to_api_format =
      .ok (.obj
        [("acceptsCashOnly", .bool false), ("acceptsCreditCards", .bool true),
         ("acceptsDebitCards", .null), ("acceptsNfc", .bool true)]) ∧
    (PriceLevel.from_api_format "PRICE_LEVEL_FREE").map
        PriceLevel.to_api_format = .ok "PRICE_LEVEL_FREE" ∧
    (BusinessStatus.from_api_format "OPERATIONAL").map
        BusinessStatus.to_api_format = .ok "OPERATIONAL" := by
  refine ⟨?_, ?_, ?_, ?_, ?_, ?_, ?_, ?_, ?_, ?_, ?_⟩
  · exact value_object_round_trip_spec.1 ⟨(.float 1, .float 2), 500⟩
      (by decide)
  · exact value_object_round_trip_spec.2.1 _ (by decide)
  · exact value_object_round_trip_spec.2.2.2.1 _ (by decide)
  · exact value_object_round_trip_spec.2.2.2.2.2.1 _ (by decide)
  · exact value_object_round_trip_spec.2.2.2.2.2.2.2.1 _ (by decide)
  · exact value_object_round_trip_spec.2.2.2.2.2.2.2.2.2.1 _ (by decide)
  · exact value_object_round_trip_spec.2.2.2.2.2.2.2.2.2.2.2.1 _ (by decide)
  · exact value_object_round_trip_spec.2.2.2.2.2.2.2.2.2.2.2.2.2.1 _
      (by decide)
  · exact value_object_round_trip_spec.2.2.2.2.2.2.2.2.2.2.2.2.2.2.2.1 _
      (by decide)
  · exact value_object_round_trip_spec.2.2.2.2.2.2.2.2.2.2.2.2.2.2.2.2.2.1
      "PRICE_LEVEL_FREE" (by decide)
  · exact
      value_object_round_trip_spec.2.2.2.2.2.2.2.2.2.2.2.2.2.2.2.2.2.2.2
      "OPERATIONAL" (by decide)
/-- C5: the text search fails before any request is constructed when
the query is empty, when both a bias and a restrict area are given, when
the page size lies outside [1, 20], when the minimum rating lies outside
[0, 5], when the FREE price level is requested, or when the restrict
area is circular; and the concrete call with minimum rating 5 passes
validation. -/
theorem search_places_by_text_spec :
    (∀ (k : String) (f : List String) (it : Option String) (lc : String)
      (ba ra : Option Area) (ps : Int) (npt : Option String)
      (mr : Option Rat) (op : Bool) (pls : List PriceLevel) (rb : String),
      search_places_by_text k "" f it lc ba ra ps npt mr op pls rb =
        .error "The query must not be empty.") ∧
    (∀ (k q : String) (f : List String) (it : Option String) (lc : String)
      (ba ra : Area) (ps : Int) (npt : Option String) (mr : Option Rat)
      (op : Bool) (pls : List PriceLevel) (rb : String),
      isOk (search_places_by_text k q f it lc (some ba) (some ra) ps npt mr
        op pls rb) = false) ∧
    (∀ (k q : String) (f : List String) (it : Option String) (lc : String)
      (ba ra : Option Area) (ps : Int) (npt : Option String)
      (mr : Option Rat) (op : Bool) (pls : List PriceLevel) (rb : String),
      ¬(0 < ps ∧ ps ≤ 20) →
      isOk (search_places_by_text k q f it lc ba ra ps npt mr op pls rb) =
        false) ∧
    (∀ (k q : String) (f : List String) (it : Option String) (lc : String)
      (ba ra : Option Area) (ps : Int) (npt : Option String) (r : Rat)
      (op : Bool) (pls : List PriceLevel) (rb : String),
      ¬(0 ≤ r ∧ r ≤ 5) →
      isOk (search_places_by_text k q f it lc ba ra ps npt (some r) op pls
        rb) = false) ∧
    (∀ (k q : String) (f : List String) (it : Option String) (lc : String)
      (ba ra : Option Area) (ps : Int) (npt : Option String)
      (mr : Option Rat) (op : Bool) (pls : List PriceLevel) (rb : String),
      PriceLevel.free ∈ pls →
      isOk (search_places_by_text k q f it lc ba ra ps npt mr op pls rb) =
        false) ∧
    (∀ (k q : String) (f : List String) (it : Option String) (lc : String)
      (ba : Option Area) (c : CircularArea) (ps : Int) (npt : Option String)
      (mr : Option Rat) (op : Bool) (pls : List PriceLevel) (rb : String),
      isOk (search_places_by_text k q f it lc ba (some (.circular c)) ps npt
        mr op pls rb) = false) ∧
    isOk (search_places_by_text "AIzaKey" "pizza" ["rating"] none "en" none
      none 20 none (some 5) false [] "relevance") = true := by
  refine ⟨fun k f it lc ba ra ps npt mr op pls rb => rfl, ?_, ?_, ?_, ?_, ?_, rfl⟩
  · intro k q f it lc ba ra ps npt mr op pls rb
    by_cases hq : q.length = 0 <;>
      simp [search_places_by_text, hq, isOk]
  · intro k q f it lc ba ra ps npt mr op pls rb hps
    by_cases hq : q.length = 0 <;>
      by_cases hboth : ba.isSome ∧ ra.isSome <;>
        simp [search_places_by_text, hq, hboth, hps, isOk]
  · intro k q f it lc ba ra ps npt r op pls rb hr
    have hr2 : r < 0 ∨ 5 < r := by
      by_contra hcon
      push_neg at hcon
      exact hr hcon
    by_cases hq : q.length = 0 <;>
      by_cases hboth : ba.isSome ∧ ra.isSome <;>
        by_cases hps : 0 < ps ∧ ps ≤ 20 <;>
          simp [search_places_by_text, hq, hboth, hps, hr2, isOk]
  · intro k q f it lc ba ra ps npt mr op pls rb hfree
    rcases mr with _ | r
    · by_cases hq : q.length = 0 <;>
        by_cases hboth : ba.isSome ∧ ra.isSome <;>
          by_cases hps : 0 < ps ∧ ps ≤ 20 <;>
            simp [search_places_by_text, hq, hboth, hps, hfree, isOk]
    · by_cases hmr : 0 ≤ r ∧ r ≤ 5
      · have hmr2 : ¬(r < 0 ∨ 5 < r) := by push_neg; exact hmr
        by_cases hq : q.length = 0 <;>
          by_cases hboth : ba.isSome ∧ ra.isSome <;>
            by_cases hps : 0 < ps ∧ ps ≤ 20 <;>
              simp [search_places_by_text, hq, hboth, hps, hmr2, hfree, isOk]
      · have hmr2 : r < 0 ∨ 5 < r := by
          by_contra hcon
          push_neg at hcon
          exact hmr hcon
        by_cases hq : q.length = 0 <;>
          by_cases hboth : ba.isSome ∧ ra.isSome <;>
            by_cases hps : 0 < ps ∧ ps ≤ 20 <;>
              simp [search_places_by_text, hq, hboth, hps, hmr2, hfree, isOk]
  · intro k q f it lc ba c ps npt mr op pls rb
    rcases mr with _ | r
    · by_cases hq : q.length = 0 <;>
        by_cases hba : ba.isSome <;>
          by_cases hps : 0 < ps ∧ ps ≤ 20 <;>
            by_cases hfree : PriceLevel.free ∈ pls <;>
              rcases hmask : create_field_mask f true with e | mask <;>
                simp [search_places_by_text, hq, hba, hps, hfree, hmask, isOk]
    · by_cases hmr : 0 ≤ r ∧ r ≤ 5
      · have hmr2 : ¬(r < 0 ∨ 5 < r) := by push_neg; exact hmr
        by_cases hq : q.length = 0 <;>
          by_cases hba : ba.isSome <;>
            by_cases hps : 0 < ps ∧ ps ≤ 20 <;>
              by_cases hfree : PriceLevel.free ∈ pls <;>
                rcases hmask : create_field_mask f true with e | mask <;>
                  simp [search_places_by_text, hq, hba, hps, hmr2, hfree,
                    hmask, isOk]
      · have hmr2 : r < 0 ∨ 5 < r := by
          by_contra hcon
          push_neg at hcon
          exact hmr hcon
        by_cases hq : q.length = 0 <;>
          by_cases hba : ba.isSome <;>
            by_cases hps : 0 < ps ∧ ps ≤ 20 <;>
              by_cases hfree : PriceLevel.free ∈ pls <;>
                simp [search_places_by_text, hq, hba, hps, hmr2, hfree, isOk]

/-- Closed instance of the text search theorem: page size 21 fails,
minimum rating 5.5 fails, and the FREE price level fails. -/
theorem search_places_by_text_spec_witness :
    isOk (search_places_by_text "AIzaKey" "pizza" ["rating"] none "en" none
      none 21 none none false [] "relevance") = false ∧
    isOk (search_places_by_text "AIzaKey" "pizza" ["rating"] none "en" none
      none 20 none (some (5.5 : Rat)) false [] "relevance") = false ∧
    isOk (search_places_by_text "AIzaKey" "pizza" ["rating"] none "en" none
      none 20 none none false [.free] "relevance") = false := by
  refine ⟨?_, ?_, ?_⟩
  · exact search_places_by_text_spec.2.2.1 "AIzaKey" "pizza" ["rating"] none
      "en" none none 21 none none false [] "relevance" (by omega)
  · exact search_places_by_text_spec.2.2.2.1 "AIzaKey" "pizza" ["rating"]
      none "en" none none 20 none (5.5 : Rat) false [] "relevance"
      (by norm_num)
  · exact search_places_by_text_spec.2.2.2.2.1 "AIzaKey" "pizza" ["rating"]
      none "en" none none 20 none none false [.free] "relevance" (by simp)

/-- C6: get_photo_uri fails when no bound is given and when a given
bound lies outside [1, 4800]; when both bounds are valid the constructed
query parameters carry the width parameter and never the height
parameter. -/
theorem get_photo_uri_spec :
    (∀ (key : String) (photo : Photo),
      get_photo_uri key photo none none =
        .error "At least one of max_width and max_height must be provided.") ∧
    (∀ (key : String) (photo : Photo) (w : Int) (mh : Option Int),
      ¬(1 ≤ w ∧ w ≤ 4800) →
      isOk (get_photo_uri key photo (some w) mh) = false) ∧
    (∀ (key : String) (photo : Photo) (h : Int) (mw : Option Int),
      ¬(1 ≤ h ∧ h ≤ 4800) →
      isOk (get_photo_uri key photo mw (some h)) = false) ∧
    (∀ (key s : String) (photo : Photo) (w h : Int),
      photo.name = .str s →
      1 ≤ w → w ≤ 4800 → 1 ≤ h → h ≤ 4800 →
      get_photo_uri key photo (some w) (some h) =
        .ok ⟨"https://places.googleapis.com/v1/" ++ stripSlashes s ++ "/media",
          key,
          [("skipHttpRedirect", .str "true"), ("maxWidthPx", .int w)]⟩) := by
  refine ⟨fun _ _ => rfl, ?_, ?_, ?_⟩
  · intro key photo w mh hw
    have hw2 : w < 1 ∨ 4800 < w := by omega
    simp [get_photo_uri, hw2, isOk]
  · intro key photo h mw hh
    have hh2 : h < 1 ∨ 4800 < h := by omega
    rcases mw with _ | w
    · simp [get_photo_uri, hh2, isOk]
    · by_cases hw : w < 1 ∨ 4800 < w
      · simp [get_photo_uri, hw, isOk]
      · have hw2 : ¬(w < 1 ∨ 4800 < w) := hw
        simp [get_photo_uri, hw2, hh2, isOk]
  · intro key s photo w h hname h1 h2 h3 h4
    have hw2 : ¬(w < 1 ∨ 4800 < w) := by omega
    have hh2 : ¬(h < 1 ∨ 4800 < h) := by omega
    simp [get_photo_uri, hname, hw2, hh2]

/-- Closed instance of the photo uri theorem: the 5000 width bound fails
and the pair 100 and 200 carries only the width parameter. -/
theorem get_photo_uri_spec_witness :
    isOk (get_photo_uri "AIzaKey" ⟨.str "places/p1/photos/ph1", .null, .null, []⟩
      (some 5000) none) = false ∧
    get_photo_uri "AIzaKey" ⟨.str "places/p1/photos/ph1", .null, .null, []⟩
      (some 100) (some 200) =
      .ok ⟨"https://places.googleapis.com/v1/places/p1/photos/ph1/media",
        "AIzaKey",
        [("skipHttpRedirect", .str "true"), ("maxWidthPx", .int 100)]⟩ := by
  constructor
  · exact get_photo_uri_spec.2.1 "AIzaKey" _ 5000 none (by decide)
  · exact get_photo_uri_spec.2.2.2 "AIzaKey" "places/p1/photos/ph1" _ 100 200
      rfl (by decide) (by decide) (by decide) (by decide)

/-- A decode step at a key that does not name a dataclass field returns
the accumulator unchanged. -/
theorem placeDecodeStep_unknown (p : Place) (k : String) (v : Json)
    (h : snakecase k ∉ validFields) : placeDecodeStep p (k, v) = .ok p := by
  unfold placeDecodeStep
  split
  all_goals first
  | rfl
  | (rename_i heq; rw [heq] at h; exact absurd (by decide) h)

/-- Folding the Place decoder over a list with an unknown key inserted
equals folding it over the list without that key. -/
theorem place_foldlM_skip (k : String) (v : Json)
    (h : snakecase k ∉ validFields) (l1 l2 : List (String × Json))
    (p : Place) :
    List.foldlM placeDecodeStep p (l1 ++ (k, v) :: l2) =
    List.foldlM placeDecodeStep p (l1 ++ l2) := by
  induction l1 generalizing p with
  | nil =>
    simp only [List.nil_append, List.foldlM_cons,
      placeDecodeStep_unknown p k v h]
    rfl
  | cons x l1 ih =>
    simp only [List.cons_append, List.foldlM_cons]
    cases hstep : placeDecodeStep p x with
    | error e => rfl
    | ok p2 => simpa using ih p2

/-- C7: the Place decoder silently drops any key that does not name a
dataclass field, so decoding with the unknown key present equals
decoding without it and no error arises from it; the empty wire object
decodes to the Place with every field absent. -/
theorem place_from_api_format_unknown_keys :
    (∀ (l1 l2 : List (String × Json)) (k : String) (v : Json),
      snakecase k ∉ validFields →
      Place.from_api_format (l1 ++ (k, v) :: l2) =
        Place.from_api_format (l1 ++ l2)) ∧
    Place.from_api_format [] = .ok {} :=
  ⟨fun l1 l2 k v h => place_foldlM_skip k v h l1 l2 {}, rfl⟩

/-- Closed instance of the unknown key theorem at the futureField key. -/
theorem place_from_api_format_unknown_keys_witness :
    Place.from_api_format [("futureField", .int 1)] =
      Place.from_api_format [] ∧
    Place.from_api_format [] = .ok {} :=
  ⟨place_from_api_format_unknown_keys.1 [] [] "futureField" (.int 1)
    (by decide),
   place_from_api_format_unknown_keys.2⟩

/-- C8: an APIError built from a body carrying message and status keeps
the status code and both fields unchanged, and one built from an empty
body has every optional field absent and renders as an unknown error. -/
theorem apierror_from_api_response_spec :
    (APIError.from_api_response 400
        [("message", .str "Invalid argument"),
         ("status", .str "INVALID_ARGUMENT")] =
      ⟨400, some "Invalid argument", some "INVALID_ARGUMENT", none⟩) ∧
    (∀ code : Int,
      APIError.from_api_response code [] = ⟨code, none, none, none⟩ ∧
        (APIError.from_api_response code []).str =
          "APIError: Unknown error") :=
  ⟨rfl, fun _ => ⟨rfl, rfl⟩⟩

/-- C9: the review encoder can never succeed, because the source first
flattens the nested dataclass fields to plain dicts with the recursive
dataclasses.asdict and then calls a method those dicts do not have, so
every call fails with an AttributeError. -/
theorem review_to_api_format_always_fails (r : Review) :
    Review.to_api_format r =
      .error "AttributeError: dict object has no attribute to_api_format" :=
  rfl
